import Mathlib

/-!
Verification development for the Project Sentinel session-lifecycle and
adaptive-risk authentication engine.

The definitions below are a shallow embedding of the server code:

* session service (create, count, validate-and-refresh, revoke, deactivate),
  from the current session service source;
* auth controller login flow (credential gate, active-session cap, OTP branch,
  risk branch, session creation, verification flag);
* auth middleware (validate, fingerprint hijack check, legacy migration);
* OTP service (generate-and-store, verify);
* risk engine (velocity counters, new-device, geo-jump, impossible travel,
  standing risk) together with the haversine travel metrics.

Times are unix-epoch milliseconds as `Int`.  The two stores (redis cache and
the durable mongo collection) are association lists keyed by strings; redis
entries carry an absolute expiry instant, and a read at time `now` returns the
entry only while `now` is strictly before that instant.  External
collaborators (geo resolution, password hashing outcome, generated random
tokens) enter as explicit parameters.  The configuration constants module of
the repository is not under the provided sources; its values are modelled from
the documentation comments and the specification (15-minute cache TTL and
durable-write throttle, cap of 3 active sessions, the documented risk weights).
-/

set_option autoImplicit false

namespace Sentinel

/-! ### Association-list store primitives -/

/-- Lookup of the first binding for a key. -/
def getA {α : Type} (m : List (String × α)) (k : String) : Option α :=
  match m.find? (fun p => p.1 == k) with
  | none => none
  | some p => some p.2

/-- Bind a key, shadowing any previous binding. -/
def setA {α : Type} (m : List (String × α)) (k : String) (v : α) :
    List (String × α) :=
  (k, v) :: m.filter (fun p => !(p.1 == k))

/-- Delete every binding for a key. -/
def delA {α : Type} (m : List (String × α)) (k : String) :
    List (String × α) :=
  m.filter (fun p => !(p.1 == k))

/-- Insertion step for a sort by descending integer key. -/
def insertByKeyDesc {α : Type} (key : α → Int) (a : α) :
    List α → List α
  | [] => [a]
  | b :: rest =>
    if key b ≤ key a then a :: b :: rest else b :: insertByKeyDesc key a rest

/-- Sort by descending integer key (models a mongo sort with direction -1). -/
def sortByKeyDesc {α : Type} (key : α → Int) (l : List α) : List α :=
  l.foldr (insertByKeyDesc key) []

/-! ### Configuration constants

The constants module is referenced by the sources but not included in them.
Values are modelled from the in-source documentation comments and the spec:
a 15 minute redis TTL and activity throttle, 7 day refresh-token life,
90 day retention with a 24 hour grace deletion, at most 3 active sessions,
and the documented risk weights (IP velocity +80 over 5 attempts, new device
+30, geo jump +50, impossible travel +100 over 800 km/h, OTP over 40). -/

namespace TIME

def DAY : Int := 86400000

end TIME

namespace SESSION

def REDIS_TTL_SECONDS : Int := 900

def ACTIVITY_DB_UPDATE_INTERVAL_MS : Int := 900000

def REFRESH_TOKEN_EXPIRES_DAYS : Int := 7

def MAX_RETAINED_INACTIVE_SESSIONS : Nat := 5

def INACTIVE_RETENTION_DAYS : Int := 90

def EXPIRE_SOON_DAYS : Int := 1

end SESSION

namespace AUTH

def MAX_ACTIVE_SESSIONS : Nat := 3

end AUTH

/-! ### Crypto helpers

The crypto utilities module is not under the provided sources.  Modelled from
the spec: hashing of refresh tokens and one-time codes, represented by
injective tagging so that distinct inputs have distinct hashes. -/

def hashToken (s : String) : String :=
  String.append "tokenhash:" s

def hashOTP (s : String) : String :=
  String.append "otphash:" s

/-! ### Data model -/

/-- Resolved geo location as carried through the session store.  Coordinates
are inert payload for every session-store claim (never computed on there), so
they are carried as integers; the risk engine, which does compute on
coordinates, has its own real-valued geo type below. -/
structure GeoPoint where
  city : String
  country : String
  latitude : Int
  longitude : Int
  deriving DecidableEq, Repr

inductive SessionStatus where
  | active
  | inactive
  | revoked
  deriving DecidableEq, Repr

/-- Durable session document, with the fields the current session service
writes (the session model file shipped alongside is an older revision; the
field set here follows the create call of the current service: `fingerprint`,
`deviceName`, ip history, location, token hash, status, legacy flag). -/
structure SessionRec where
  userId : String
  userAgent : String
  fingerprint : String
  deviceName : String
  ipFirstSeen : String
  ipLastSeen : String
  ipLastChangedAt : Option Int
  ipChangeCount : Int
  location : GeoPoint
  refreshToken : String
  refreshTokenExpiry : Int
  lastActiveAt : Int
  status : SessionStatus
  isLegacy : Bool
  isSuspicious : Bool
  expireAt : Option Int
  deriving DecidableEq, Repr

/-- Session snapshot: both the JSON blob cached in redis under the hashed
refresh token and the in-flight value the validator works on.  Fields are
`Option` where a source may leave them absent (`undefined`/`null`): a blob
serialized for the cache never carries `location`, and a snapshot resolved
from the durable store carries no `sessionId` (the lean document exposes the
identifier as `_id`, while the code reads the absent property `sessionId`). -/
structure Snapshot where
  sessionId : Option String
  refreshTokenExpiry : Int
  fingerprint : Option String
  ipLastSeen : String
  ipLastChangedAt : Option Int
  lastActiveAt : Option Int
  location : Option GeoPoint
  deriving DecidableEq, Repr

/-- Redis value: cached snapshot plus absolute expiry instant (set via EX). -/
structure CacheVal where
  entry : Snapshot
  expiresAt : Int
  deriving DecidableEq, Repr

structure UserRec where
  email : String
  password : String
  role : String
  isVerified : Bool
  riskScore : Int
  deriving DecidableEq, Repr

/-- Stored one-time-password challenge (redis key `otp:identifier`): hashed
code, issuing IP and issuance time.  The issuing device fingerprint is NOT
part of this payload: the generate call in the service stores only these
three fields. -/
structure OtpEntry where
  otp : String
  ipAddress : String
  createdAt : Int
  expiresAt : Int
  deriving DecidableEq, Repr

/-- Notification kinds dispatched by the flows (fire-and-forget capability). -/
inductive EmailKind where
  | otpLogin
  | sessionLimit
  | otpFingerprintMismatch
  | sessionHijackDetected
  | impossibleTravel
  | suspiciousLogin
  deriving DecidableEq, Repr

/-- Combined store state: durable session documents, the redis refresh-token
cache, the redis OTP slots, durable user records, and the list of dispatched
notifications (newest first). -/
structure Db where
  sessions : List (String × SessionRec)
  redis : List (String × CacheVal)
  otp : List (String × OtpEntry)
  users : List (String × UserRec)
  emails : List EmailKind
  deriving DecidableEq, Repr

/-! ### Store operations -/

def redisGet (db : Db) (now : Int) (key : String) : Option Snapshot :=
  match getA db.redis key with
  | none => none
  | some v => if now < v.expiresAt then some v.entry else none

def redisSetEx (db : Db) (now : Int) (key : String) (entry : Snapshot)
    (ttlSeconds : Int) : Db :=
  let v : CacheVal := { entry := entry, expiresAt := now + 1000 * ttlSeconds }
  { db with redis := setA db.redis key v }

def redisDel (db : Db) (key : String) : Db :=
  { db with redis := delA db.redis key }

def otpGet (db : Db) (now : Int) (identifier : String) : Option OtpEntry :=
  match getA db.otp identifier with
  | none => none
  | some e => if now < e.expiresAt then some e else none

/-- Mongoose `findByIdAndUpdate`.  An absent identifier (the JS value
`undefined`, cast by mongoose to a null `_id` filter) matches no document and
the store is left unchanged. -/
def findByIdAndUpdate (sessions : List (String × SessionRec))
    (id : Option String) (f : SessionRec → SessionRec) :
    List (String × SessionRec) :=
  match id with
  | none => sessions
  | some i => sessions.map (fun p => if p.1 = i then (p.1, f p.2) else p)

def mongoFindOneActiveByToken (sessions : List (String × SessionRec))
    (tokenHash : String) : Option (String × SessionRec) :=
  sessions.find? (fun p =>
    decide (p.2.refreshToken = tokenHash ∧ p.2.status = SessionStatus.active))

def sendEmail (db : Db) (kind : EmailKind) : Db :=
  { db with emails := kind :: db.emails }

def updateUser (db : Db) (uid : String) (f : UserRec → UserRec) : Db :=
  { db with users := db.users.map (fun p => if p.1 = uid then (p.1, f p.2) else p) }

def findUserByEmail (db : Db) (email : String) : Option (String × UserRec) :=
  db.users.find? (fun p => decide (p.2.email = email))

/-! ### Session service -/

/-- Count of documents in a session list with the given user and ACTIVE
status. -/
def countActiveList (l : List (String × SessionRec)) (userId : String) : Nat :=
  (l.filter (fun p =>
    decide (p.2.userId = userId ∧ p.2.status = SessionStatus.active))).length

/-- Count of documents with the given user and ACTIVE status. -/
def getActiveSessionsCount (db : Db) (userId : String) : Nat :=
  countActiveList db.sessions userId

/-- Retention deadline for one overflowing stale session: near-term deletion
when the last activity is already past the retention window, otherwise
deletion exactly at the retention mark. -/
def retentionExpireAt (now lastActiveAt : Int) : Int :=
  if now - lastActiveAt ≥ SESSION.INACTIVE_RETENTION_DAYS * TIME.DAY then
    now + SESSION.EXPIRE_SOON_DAYS * TIME.DAY
  else lastActiveAt + SESSION.INACTIVE_RETENTION_DAYS * TIME.DAY

/-- Retention pass over the overflowing stale sessions: persist the computed
`expireAt` and drop the cache entry of each (its token is no longer honored;
the source guards the deletion behind a truthiness check of the hash). -/
def applyRetention (db : Db) (now : Int) :
    List (String × SessionRec) → Db
  | [] => db
  | p :: rest =>
    let upd := fun (r : SessionRec) =>
      { r with expireAt := some (retentionExpireAt now p.2.lastActiveAt) }
    let db1 := { db with sessions := findByIdAndUpdate db.sessions (some p.1) upd }
    let db2 := if p.2.refreshToken ≠ "" then redisDel db1 p.2.refreshToken else db1
    applyRetention db2 now rest

/-- Device display name helper.  Modelled from the spec: the helper module is
not under the provided sources; the derived display name is opaque to every
claim, so it is modelled as the user agent itself. -/
def getDeviceName (userAgent : String) : String :=
  userAgent

/-- Session creation: retention pass over stale (inactive or revoked)
sessions sorted by last activity (the source slices the overflow starting at
index `MAX_RETAINED_INACTIVE_SESSIONS - 1`), then the new ACTIVE document and
its cache blob.  The fresh document identifier is passed in explicitly. -/
def createUserSession (db : Db) (now : Int) (newSessionId : String)
    (userId ipAddress userAgent fingerprint : String)
    (geoLocation : GeoPoint) (refreshToken : String) (isLegacy : Bool) :
    Db × SessionRec :=
  let staleSessions := sortByKeyDesc (fun p => p.2.lastActiveAt)
    (db.sessions.filter (fun p =>
      decide (p.2.userId = userId ∧
        (p.2.status = SessionStatus.inactive ∨ p.2.status = SessionStatus.revoked))))
  let db0 :=
    if staleSessions.length > SESSION.MAX_RETAINED_INACTIVE_SESSIONS then
      applyRetention db now
        (staleSessions.drop (SESSION.MAX_RETAINED_INACTIVE_SESSIONS - 1))
    else db
  let refreshTokenHash := hashToken refreshToken
  let newSession : SessionRec :=
    { userId := userId
      userAgent := userAgent
      fingerprint := fingerprint
      deviceName := getDeviceName userAgent
      ipFirstSeen := ipAddress
      ipLastSeen := ipAddress
      ipLastChangedAt := none
      ipChangeCount := 0
      location := geoLocation
      refreshToken := refreshTokenHash
      refreshTokenExpiry := now + SESSION.REFRESH_TOKEN_EXPIRES_DAYS * TIME.DAY
      lastActiveAt := now
      status := SessionStatus.active
      isLegacy := isLegacy
      isSuspicious := false
      expireAt := none }
  let db1 := { db0 with sessions := (newSessionId, newSession) :: db0.sessions }
  let blob : Snapshot :=
    { sessionId := some newSessionId
      refreshTokenExpiry := newSession.refreshTokenExpiry
      fingerprint := some fingerprint
      ipLastSeen := ipAddress
      ipLastChangedAt := none
      lastActiveAt := some now
      location := none }
  let db2 := redisSetEx db1 now refreshTokenHash blob SESSION.REDIS_TTL_SECONDS
  (db2, newSession)

/-- Snapshot produced from a durable document found by the cache-miss
fallback (a mongoose lean document).  The document exposes its identifier as
`_id`; the validator later reads the absent property `sessionId`, so the
snapshot carries none.  All other consulted fields are present. -/
def leanDocToSnapshot (doc : String × SessionRec) : Snapshot :=
  { sessionId := none
    refreshTokenExpiry := doc.2.refreshTokenExpiry
    fingerprint := some doc.2.fingerprint
    ipLastSeen := doc.2.ipLastSeen
    ipLastChangedAt := doc.2.ipLastChangedAt
    lastActiveAt := some doc.2.lastActiveAt
    location := some doc.2.location }

/-- Staleness test for the durable write throttle, including the JS falsy
treatment of a zero or absent `lastActiveAt`. -/
def staleActivity (now : Int) (lastActiveAt : Option Int) : Bool :=
  match lastActiveAt with
  | none => true
  | some t => t == 0 || decide (now - t > SESSION.ACTIVITY_DB_UPDATE_INTERVAL_MS)

/-- Cache blob rewritten on every successful validation: activity slid to
`now`, last-seen IP replaced by the current IP, and no `location` key in the
serialized payload. -/
def refreshedCacheEntry (session : Snapshot) (currentIp : String) (now : Int)
    (ipChanged : Bool) : Snapshot :=
  { sessionId := session.sessionId
    refreshTokenExpiry := session.refreshTokenExpiry
    fingerprint := session.fingerprint
    ipLastSeen := currentIp
    ipLastChangedAt := if ipChanged then some now else session.ipLastChangedAt
    lastActiveAt := some now
    location := none }

structure VerifyResult where
  snapshot : Option Snapshot
  db : Db
  dbWrites : Nat
  deriving DecidableEq, Repr

/-- Snapshot resolution: the cache entry when present, otherwise the ACTIVE
durable document converted to a snapshot. -/
def resolveSnapshot (db : Db) (now : Int) (refreshToken : String) : Option Snapshot :=
  match redisGet db now refreshToken with
  | none => (mongoFindOneActiveByToken db.sessions refreshToken).map leanDocToSnapshot
  | some entry => some entry

/-- Validation hot path: resolve the snapshot from the cache, falling back to
an ACTIVE-filtered durable lookup; on expiry delete the cache entry and issue
a durable INACTIVE update; otherwise rewrite the cache entry with a TTL of
`min baseTTL remaining` and issue a durable update only on IP change or stale
activity.  `dbWrites` counts the durable update commands issued by the call.
The remaining lifetime uses floor division by 1000 (`Math.floor`), which for
the positive divisor is `Int.ediv`. -/
def verifyAndUpdateUserSessionActivity (geo : String → GeoPoint) (db : Db)
    (now : Int) (refreshToken currentIp : String) : VerifyResult :=
  match resolveSnapshot db now refreshToken with
  | none => { snapshot := none, db := db, dbWrites := 0 }
  | some session =>
    let ipChanged : Bool := decide (session.ipLastSeen ≠ currentIp)
    let shouldUpdateDb : Bool := staleActivity now session.lastActiveAt
    let remainingSeconds : Int := Int.ediv (session.refreshTokenExpiry - now) 1000
    if remainingSeconds ≤ 0 then
      let db1 := redisDel db refreshToken
      let markInactive := fun (r : SessionRec) => { r with status := SessionStatus.inactive }
      let db2 := { db1 with sessions := findByIdAndUpdate db1.sessions session.sessionId markInactive }
      { snapshot := none, db := db2, dbWrites := 1 }
    else
      let ttlSeconds := min SESSION.REDIS_TTL_SECONDS remainingSeconds
      let db1 := redisSetEx db now refreshToken (refreshedCacheEntry session currentIp now ipChanged) ttlSeconds
      if !shouldUpdateDb && !ipChanged then
        { snapshot := some session, db := db1, dbWrites := 0 }
      else
        let db2 :=
          if ipChanged then
            let g := geo currentIp
            let upd := fun (r : SessionRec) =>
              { r with lastActiveAt := now, ipLastSeen := currentIp,
                       ipLastChangedAt := some now,
                       ipChangeCount := r.ipChangeCount + 1, location := g }
            { db1 with sessions := findByIdAndUpdate db1.sessions session.sessionId upd }
          else
            let upd := fun (r : SessionRec) => { r with lastActiveAt := now }
            { db1 with sessions := findByIdAndUpdate db1.sessions session.sessionId upd }
        { snapshot := some session, db := db2, dbWrites := 1 }

/-- Revocation: durable status update to REVOKED (findOneAndUpdate returning
the pre-update document) followed by deletion of that document's cache key. -/
def revokeUserSession (db : Db) (sessionId : String) : Db :=
  match getA db.sessions sessionId with
  | none => db
  | some doc0 =>
    let markRevoked := fun (r : SessionRec) => { r with status := SessionStatus.revoked }
    let db1 := { db with sessions := findByIdAndUpdate db.sessions (some sessionId) markRevoked }
    redisDel db1 doc0.refreshToken

/-- Deactivation: durable status update to INACTIVE followed by deletion of
the document's cache key. -/
def deactivateUserSession (db : Db) (sessionId : String) : Db :=
  match getA db.sessions sessionId with
  | none => db
  | some doc0 =>
    let markInactive := fun (r : SessionRec) => { r with status := SessionStatus.inactive }
    let db1 := { db with sessions := findByIdAndUpdate db.sessions (some sessionId) markInactive }
    redisDel db1 doc0.refreshToken

/-! ### OTP service -/

namespace OTP

def TTL_SECONDS : Int := 300

end OTP

/-- Verification result reasons of the OTP service.  The fingerprint-mismatch
value is referenced by the login controller; the service itself never
produces it. -/
inductive OtpVerificationResultReason where
  | otpExpiredOrNotFound
  | otpIpMismatch
  | otpIncorrect
  | otpValid
  | otpFingerprintMismatch
  deriving DecidableEq, Repr

/-- Issue a challenge: hashed code, issuing IP and issuance time stored in
the single per-identity slot with a five-minute TTL, overwriting any prior
challenge.  The payload holds no device fingerprint. -/
def generateAndStoreOtp (db : Db) (now : Int) (identifier ipAddress : String)
    (oneTimePassword : String) : Db :=
  let payload : OtpEntry :=
    { otp := hashOTP oneTimePassword
      ipAddress := ipAddress
      createdAt := now
      expiresAt := now + 1000 * OTP.TTL_SECONDS }
  { db with otp := setA db.otp identifier payload }

structure OtpVerifyResult where
  success : Bool
  reason : OtpVerificationResultReason
  db : Db
  deriving DecidableEq, Repr

/-- Verify a challenge against the stored slot.  Absent or expired slot,
issuing-IP mismatch and hash mismatch each fail without touching any store;
on success the slot is deleted and the standing risk score of the identity is
reset to zero. -/
def verifyOneTimePassword (db : Db) (now : Int)
    (identifier ipAddress providedOtp : String) : OtpVerifyResult :=
  match otpGet db now identifier with
  | none => { success := false, reason := .otpExpiredOrNotFound, db := db }
  | some entry =>
    if entry.ipAddress ≠ ipAddress then
      { success := false, reason := .otpIpMismatch, db := db }
    else if entry.otp ≠ hashOTP providedOtp then
      { success := false, reason := .otpIncorrect, db := db }
    else
      let db1 := { db with otp := delA db.otp identifier }
      let db2 := updateUser db1 identifier (fun u => { u with riskScore := 0 })
      { success := true, reason := .otpValid, db := db2 }

/-! ### Login controller -/

/-- Inputs of one login request, with the external collaborators supplied as
oracle fields: the bcrypt comparison outcome, the risk engine verdict (the
engine itself is formalized in the Risk namespace; it mutates only velocity
counters and dispatches notifications, never session or user records), the
generated random OTP and refresh token, the resolved geo location, and the
fresh session identifier. -/
structure LoginCall where
  now : Int
  email : String
  password : String
  providedOtp : Option String
  clientIp : String
  fingerprint : String
  userAgent : String
  passwordOk : Bool
  riskRequiresOtp : Bool
  generatedOtp : String
  geoLocation : GeoPoint
  newSessionId : String
  rawRefreshToken : String
  deriving DecidableEq, Repr

inductive LoginOutcome where
  | badRequest
  | invalidCredentials
  | sessionCapExceeded
  | otpFailed (reason : OtpVerificationResultReason)
  | otpRequired
  | success (sessionId : String)
  deriving DecidableEq, Repr

/-- Tail of the login flow once all gates pass: create the session, set the
auth cookies, then persist `isVerified := true` on the user. -/
def finishLogin (db : Db) (c : LoginCall) (uid : String) : Db × LoginOutcome :=
  let created := createUserSession db c.now c.newSessionId uid c.clientIp
    c.userAgent c.fingerprint c.geoLocation c.rawRefreshToken false
  let db2 := updateUser created.1 uid (fun u => { u with isVerified := true })
  (db2, LoginOutcome.success c.newSessionId)

/-- Login flow of the auth controller: credential gate, active-session cap
gate (refusal dispatches the session-limit notification), then either the
OTP-first branch or the risk branch, then session creation.  In the OTP
branch the controller passes the device fingerprint as the third argument,
and the three-parameter service binds its `providedOtp` parameter to it; the
code the user typed is the dropped fourth argument. -/
def login (db : Db) (c : LoginCall) : Db × LoginOutcome :=
  if c.email = "" ∨ c.password = "" then (db, LoginOutcome.badRequest) else
  match findUserByEmail db c.email with
  | none => (db, LoginOutcome.invalidCredentials)
  | some found =>
    if !c.passwordOk then (db, LoginOutcome.invalidCredentials) else
    let uid := found.1
    let foundUser := found.2
    let totalActiveSessionCounts := getActiveSessionsCount db uid
    if totalActiveSessionCounts ≥ AUTH.MAX_ACTIVE_SESSIONS then
      (sendEmail db EmailKind.sessionLimit, LoginOutcome.sessionCapExceeded)
    else
      match c.providedOtp with
      | some _providedOtp =>
        let vr := verifyOneTimePassword db c.now uid c.clientIp c.fingerprint
        if !vr.success then
          if vr.reason = OtpVerificationResultReason.otpFingerprintMismatch then
            (sendEmail vr.db EmailKind.otpFingerprintMismatch, LoginOutcome.otpFailed vr.reason)
          else
            (vr.db, LoginOutcome.otpFailed vr.reason)
        else
          finishLogin vr.db c uid
      | none =>
        if c.riskRequiresOtp ∨ !foundUser.isVerified then
          let db1 := generateAndStoreOtp db c.now uid c.clientIp c.generatedOtp
          (sendEmail db1 EmailKind.otpLogin, LoginOutcome.otpRequired)
        else
          finishLogin db c uid

/-! ### Request authenticator (auth middleware) -/

inductive AuthOutcome where
  | reject (message : String)
  | allow (sessionId : String)
  | allowLegacy (newSessionId newRefreshToken : String)
  deriving DecidableEq, Repr

/-- Property read `sessionData.deviceFingerprint` performed by the hijack
check of the middleware.  No writer ever sets a `deviceFingerprint` key on
the snapshot: the cache blobs and the durable documents written by the
current session service store the fingerprint under the key `fingerprint`,
so the read yields the absent value. -/
def snapshotDeviceFingerprint (_s : Snapshot) : Option String :=
  none

/-- Authenticator path for a token carrying a session identifier: validate
and refresh the session, reject on NotFound, revoke and reject on a
fingerprint-binding mismatch (with the hijack notification), and otherwise
run the mid-session travel check.  The real-valued travel-speed comparison of
that last section is supplied as the oracle `travelExceeds` (the haversine
computation is formalized in the Risk namespace); reading
`sessionData.location.latitude` on a cache-sourced snapshot, which has no
location, raises and is answered by the catch-all 401. -/
def authenticateWithSession (geo : String → GeoPoint) (db : Db) (now : Int)
    (uid sessionId refreshTokenHash clientIp deviceFingerprint : String)
    (travelExceeds : Bool) : Db × AuthOutcome :=
  let v := verifyAndUpdateUserSessionActivity geo db now refreshTokenHash clientIp
  match v.snapshot with
  | none => (v.db, AuthOutcome.reject "Session invalid or expired. Please log in again.")
  | some sessionData =>
    if snapshotDeviceFingerprint sessionData ≠ some deviceFingerprint then
      let db1 := sendEmail v.db EmailKind.sessionHijackDetected
      let db2 := revokeUserSession db1 sessionId
      (db2, AuthOutcome.reject "Session invalid or expired. Please log in again.")
    else
      if sessionData.ipLastSeen ≠ clientIp then
        match sessionData.location with
        | none => (v.db, AuthOutcome.reject "Authentication failed. Please log in.")
        | some _loc =>
          if travelExceeds then
            let db1 := sendEmail v.db EmailKind.impossibleTravel
            let db2 := updateUser db1 uid (fun u => { u with riskScore := u.riskScore + 40 })
            (db2, AuthOutcome.allow sessionId)
          else
            (v.db, AuthOutcome.allow sessionId)
      else
        (v.db, AuthOutcome.allow sessionId)

/-- Legacy-token migration path: for a valid access token with no embedded
session id, synthesize a new session (`isLegacy := true`), bump the standing
risk score by the migration penalty of 20, issue a fresh token pair bound to
the new session, and let the request proceed. -/
def authenticateLegacy (db : Db) (now : Int)
    (uid clientIp userAgent deviceFingerprint : String)
    (geoLocation : GeoPoint) (newRefreshToken newSessionId : String) :
    Db × AuthOutcome :=
  let created := createUserSession db now newSessionId uid clientIp userAgent
    deviceFingerprint geoLocation newRefreshToken true
  let db2 := updateUser created.1 uid (fun u => { u with riskScore := u.riskScore + 20 })
  (db2, AuthOutcome.allowLegacy newSessionId newRefreshToken)

/-! ### Risk engine

The risk engine computes on geographic coordinates (haversine great-circle
distance and travel speed), so its embedding idealizes the JS double
arithmetic over the real numbers; the defs of this part are therefore
noncomputable and concrete instances are evaluated by simp lemmas rather
than by kernel reduction. -/

namespace RISK

def IP_VELOCITY_THRESHOLD : Nat := 5

def SCORE_IP_VELOCITY : Int := 80

def NEW_DEVICE_THRESHOLD : Nat := 5

def SCORE_FINGERPRINT_VELOCITY : Int := 20

def SCORE_NEW_DEVICE : Int := 30

def SCORE_GEO_JUMP : Int := 50

def SCORE_IMPOSSIBLE_TRAVEL : Int := 100

noncomputable def MAX_TRAVEL_SPEED_KMPH : ℝ := 800

def OTP_SCORE_THRESHOLD : Int := 40

def USER_RISK_SCORE_MAX : Int := 70

def SCORE_USER_RISK : Int := 25

end RISK

namespace Risk

open Sentinel

/-- Geo location as consumed by the risk engine, with real coordinates. -/
structure GeoLocation where
  city : String
  country : String
  latitude : ℝ
  longitude : ℝ

structure TravelMetrics where
  distanceInKilometers : ℝ
  travelSpeedKilometersPerHour : ℝ
  timeDifferenceHours : ℝ

noncomputable def EARTH_RADIUS_IN_KILOMETERS : ℝ := 6371

/-- Two-argument arctangent with the JS `Math.atan2 y x` branch behaviour. -/
noncomputable def atan2 (y x : ℝ) : ℝ :=
  if 0 < x then Real.arctan (y / x)
  else if x < 0 then
    (if 0 ≤ y then Real.arctan (y / x) + Real.pi else Real.arctan (y / x) - Real.pi)
  else
    (if 0 < y then Real.pi / 2 else if y < 0 then -(Real.pi / 2) else 0)

/-- Haversine travel metrics between two observations: great-circle distance,
elapsed hours, and the implied speed, with a zero or negative elapsed time
yielding a speed of zero rather than an error. -/
noncomputable def calculateTravelMetrics
    (startLatitude startLongitude endLatitude endLongitude : ℝ)
    (startTimestamp endTimestamp : Int) : TravelMetrics :=
  let convertDegreesToRadians := fun (degrees : ℝ) => degrees * Real.pi / 180
  let latDiff := convertDegreesToRadians (endLatitude - startLatitude)
  let lonDiff := convertDegreesToRadians (endLongitude - startLongitude)
  let haversineComponent :=
    Real.sin (latDiff / 2) ^ 2 +
      Real.cos (convertDegreesToRadians startLatitude) *
        Real.cos (convertDegreesToRadians endLatitude) *
        Real.sin (lonDiff / 2) ^ 2
  let centralAngle :=
    2 * atan2 (Real.sqrt haversineComponent) (Real.sqrt (1 - haversineComponent))
  let distanceInKilometers := EARTH_RADIUS_IN_KILOMETERS * centralAngle
  let timeDifferenceMs : ℝ := ((endTimestamp - startTimestamp : Int) : ℝ)
  let timeDifferenceHours := timeDifferenceMs / (1000 * 60 * 60)
  if timeDifferenceHours ≤ 0 then
    { distanceInKilometers := distanceInKilometers
      travelSpeedKilometersPerHour := 0
      timeDifferenceHours := 0 }
  else
    { distanceInKilometers := distanceInKilometers
      travelSpeedKilometersPerHour := distanceInKilometers / timeDifferenceHours
      timeDifferenceHours := timeDifferenceHours }

/-- Session projection consulted by the risk engine: device fingerprint,
last-seen IP, location and last activity of a session of the user. -/
structure RSession where
  userId : String
  fingerprint : String
  ipLastSeen : String
  location : GeoLocation
  lastActiveAt : Int

/-- State consulted and mutated by the risk engine: the two sliding-window
velocity counters (redis keys, auto-expiring; the embedding keeps the counts,
whose first-increment behaviour is all the claims consult), the session
documents of the durable store, the standing risk scores of the user records,
and the dispatched notifications. -/
structure RState where
  ipCounters : List (String × Nat)
  fingerprintCounters : List (String × Nat)
  sessions : List RSession
  users : List (String × Int)
  emails : List EmailKind

/-- Atomic increment returning the post-increment count. -/
def incrCounter (m : List (String × Nat)) (k : String) : Nat × List (String × Nat) :=
  match getA m k with
  | none => (1, setA m k 1)
  | some n => (n + 1, setA m k (n + 1))

/-- Most recent session of the user by activity time (findOne with a
descending sort). -/
def lastSessionOf (sessions : List RSession) (userId : String) : Option RSession :=
  (sortByKeyDesc (fun s => s.lastActiveAt)
    (sessions.filter (fun s => decide (s.userId = userId)))).head?

structure RiskResult where
  score : Int
  requiresOtp : Bool

open scoped Classical in
/-- Risk evaluation of a login attempt: resolve the geo once, run the two
velocity counters, the new-device lookup, the geo-jump and travel evaluation
against the most recent session (dispatching the suspicious-login
notification when the implied speed reaches the impossible-travel threshold),
and the standing-risk ceiling; the verdict requires a challenge when the
summed score passes the OTP threshold. -/
noncomputable def evaluateLoginRisk (geo : String → GeoLocation) (st : RState)
    (now : Int) (userId userEmail ip fingerprint userAgent : String) :
    RiskResult × RState :=
  let g := geo ip
  let ipIncr := incrCounter st.ipCounters (String.append "risk:ip:" ip)
  let scoreIp : Int :=
    if ipIncr.1 > RISK.IP_VELOCITY_THRESHOLD then RISK.SCORE_IP_VELOCITY else 0
  let fpIncr := incrCounter st.fingerprintCounters (String.append "risk:fingerprint:" fingerprint)
  let scoreFp : Int :=
    if fpIncr.1 > RISK.NEW_DEVICE_THRESHOLD then RISK.SCORE_FINGERPRINT_VELOCITY else 0
  let hasDevice := st.sessions.find? (fun s =>
    decide (s.userId = userId ∧ s.fingerprint = fingerprint))
  let scoreNewDevice : Int := if hasDevice = none then RISK.SCORE_NEW_DEVICE else 0
  let geoPart : Int × List EmailKind :=
    match lastSessionOf st.sessions userId with
    | none => (0, st.emails)
    | some lastSession =>
      if lastSession.ipLastSeen ≠ ip then
        let scoreJump : Int :=
          if lastSession.location.country ≠ g.country then RISK.SCORE_GEO_JUMP else 0
        let metrics := calculateTravelMetrics lastSession.location.latitude
          lastSession.location.longitude g.latitude g.longitude
          lastSession.lastActiveAt now
        if metrics.travelSpeedKilometersPerHour ≥ RISK.MAX_TRAVEL_SPEED_KMPH then
          (scoreJump + RISK.SCORE_IMPOSSIBLE_TRAVEL, EmailKind.suspiciousLogin :: st.emails)
        else
          (scoreJump, st.emails)
      else
        (0, st.emails)
  let scoreUser : Int :=
    match getA st.users userId with
    | none => 0
    | some riskScore => if riskScore > RISK.USER_RISK_SCORE_MAX then RISK.SCORE_USER_RISK else 0
  let score := scoreIp + scoreFp + scoreNewDevice + geoPart.1 + scoreUser
  let st1 : RState :=
    { st with ipCounters := ipIncr.2, fingerprintCounters := fpIncr.2, emails := geoPart.2 }
  ({ score := score, requiresOtp := score > RISK.OTP_SCORE_THRESHOLD }, st1)

end Risk

/-! ### Store lemmas -/

theorem find?_filter_ne {α : Type} (m : List (String × α)) (k k' : String)
    (h : k' ≠ k) :
    (m.filter (fun p => !(p.1 == k))).find? (fun p => p.1 == k') =
      m.find? (fun p => p.1 == k') := by
  induction m with
  | nil => rfl
  | cons a l ih =>
    by_cases ha : a.1 = k
    · have h1 : (a.1 == k) = true := by simpa using ha
      have h2 : (a.1 == k') = false := by
        refine beq_eq_false_iff_ne.mpr ?_
        rw [ha]
        exact fun hc => h hc.symm
      simp [List.filter_cons, List.find?_cons, h1, h2, ih]
    · have h1 : (a.1 == k) = false := beq_eq_false_iff_ne.mpr ha
      by_cases ha' : a.1 = k'
      · have h2 : (a.1 == k') = true := by simpa using ha'
        simp [List.filter_cons, List.find?_cons, h1, h2]
      · have h2 : (a.1 == k') = false := beq_eq_false_iff_ne.mpr ha'
        simp [List.filter_cons, List.find?_cons, h1, h2, ih]

theorem getA_setA_self {α : Type} (m : List (String × α)) (k : String) (v : α) :
    getA (setA m k v) k = some v := by
  simp [getA, setA, List.find?_cons]

theorem getA_setA_ne {α : Type} (m : List (String × α)) (k k' : String) (v : α)
    (h : k' ≠ k) : getA (setA m k v) k' = getA m k' := by
  have hk : (k == k') = false := by
    simp
    exact fun hc => h hc.symm
  simp [getA, setA, List.find?_cons, hk, find?_filter_ne m k k' h]

theorem getA_delA_self {α : Type} (m : List (String × α)) (k : String) :
    getA (delA m k) k = none := by
  have : (m.filter (fun p => !(p.1 == k))).find? (fun p => p.1 == k) = none := by
    rw [List.find?_eq_none]
    intro p hp
    have := (List.mem_filter.mp hp).2
    simpa using this
  simp [getA, delA, this]

theorem getA_delA_ne {α : Type} (m : List (String × α)) (k k' : String)
    (h : k' ≠ k) : getA (delA m k) k' = getA m k' := by
  simp [getA, delA, find?_filter_ne m k k' h]

theorem getA_map_keyed {α : Type} (m : List (String × α)) (i k : String)
    (f : α → α) :
    getA (m.map (fun p => if p.1 = i then (p.1, f p.2) else p)) k =
      if k = i then (getA m k).map f else getA m k := by
  induction m with
  | nil => simp [getA]
  | cons a l ih =>
    by_cases hai : a.1 = i
    · by_cases hak : a.1 = k
      · have hki : k = i := by rw [← hak, hai]
        simp [getA, List.find?_cons, hai, hak, hki]
      · have hak' : (a.1 == k) = false := by simpa using hak
        simp only [List.map_cons, if_pos hai, getA, List.find?_cons, hak'] at *
        simpa [getA] using ih
    · by_cases hak : a.1 = k
      · have hki : ¬ k = i := by rw [← hak]; exact hai
        simp [getA, List.find?_cons, hai, hak, hki]
      · have hak' : (a.1 == k) = false := by simpa using hak
        simp only [List.map_cons, if_neg hai, getA, List.find?_cons, hak'] at *
        simpa [getA] using ih

theorem getA_findByIdAndUpdate (l : List (String × SessionRec)) (i k : String)
    (f : SessionRec → SessionRec) :
    getA (findByIdAndUpdate l (some i) f) k =
      if k = i then (getA l k).map f else getA l k := by
  simp [findByIdAndUpdate, getA_map_keyed]

theorem getA_updateUser (db : Db) (uid k : String) (f : UserRec → UserRec) :
    getA (updateUser db uid f).users k =
      if k = uid then (getA db.users k).map f else getA db.users k := by
  simp [updateUser, getA_map_keyed]

/-- Entries of an updated session list come from the original list with the
same key, either untouched or through the update function. -/
theorem mem_findByIdAndUpdate (l : List (String × SessionRec)) (i : Option String)
    (f : SessionRec → SessionRec) (k : String) (r' : SessionRec)
    (h : (k, r') ∈ findByIdAndUpdate l i f) :
    ∃ r, (k, r) ∈ l ∧ (r' = r ∨ r' = f r) := by
  cases i with
  | none => exact ⟨r', h, Or.inl rfl⟩
  | some i =>
    simp only [findByIdAndUpdate, List.mem_map] at h
    obtain ⟨p, hp, heq⟩ := h
    by_cases hpi : p.1 = i
    · rw [if_pos hpi] at heq
      refine ⟨p.2, ?_, Or.inr ?_⟩
      · have hk : p.1 = k := congrArg Prod.fst heq
        rw [← hk]; exact hp
      · exact (congrArg Prod.snd heq).symm
    · rw [if_neg hpi] at heq
      refine ⟨p.2, ?_, Or.inl ?_⟩
      · have hk : p.1 = k := congrArg Prod.fst heq
        rw [← hk]; exact hp
      · exact (congrArg Prod.snd heq).symm

/-! ### Concrete fallback geo resolver (shared by concrete instances) -/

def geoFallback : String → GeoPoint :=
  fun _ => { city := "Unknown", country := "Unknown", latitude := 0, longitude := 0 }

def emptyDb : Db :=
  { sessions := [], redis := [], otp := [], users := [], emails := [] }

/-! ### C1 -/

def c1SessionRec : SessionRec :=
  { userId := "u1"
    userAgent := "ua"
    fingerprint := "f1"
    deviceName := "ua"
    ipFirstSeen := "1.1.1.1"
    ipLastSeen := "1.1.1.1"
    ipLastChangedAt := none
    ipChangeCount := 0
    location := geoFallback ""
    refreshToken := "tokenhash:t1"
    refreshTokenExpiry := 500000
    lastActiveAt := 400000
    status := SessionStatus.active
    isLegacy := false
    isSuspicious := false
    expireAt := none }

def c1Db : Db :=
  { sessions := [("s1", c1SessionRec)], redis := [], otp := [], users := [], emails := [] }

/-- C1: the claim states that validating a token whose refresh expiry is in
the past returns NotFound and leaves the durable session INACTIVE regardless
of whether the snapshot came from the cache or from the durable-store
fallback.  On the fallback path the code the claim is right about is broken:
the lean document exposes `_id` while the update targets the absent property
`sessionId`, so the issued INACTIVE update matches no document.  At the
failing input (cache empty, expired ACTIVE durable session) the call returns
NotFound and issues the durable write, yet the session document is left
unchanged and still ACTIVE, contradicting both the claim and the in-source
documentation of the function. -/
theorem c1_expired_fallback_leaves_session_active :
    (verifyAndUpdateUserSessionActivity geoFallback c1Db 1000000 "tokenhash:t1" "1.1.1.1").snapshot = none ∧
    (verifyAndUpdateUserSessionActivity geoFallback c1Db 1000000 "tokenhash:t1" "1.1.1.1").dbWrites = 1 ∧
    getA (verifyAndUpdateUserSessionActivity geoFallback c1Db 1000000 "tokenhash:t1" "1.1.1.1").db.sessions "s1" =
      some c1SessionRec ∧
    c1SessionRec.status = SessionStatus.active := by
  decide

/-! ### C4 -/

def c4User : UserRec :=
  { email := "victim@example.com", password := "pw", role := "user",
    isVerified := true, riskScore := 0 }

def c4Db : Db :=
  { sessions := []
    redis := []
    otp := [("u1", { otp := hashOTP "123456", ipAddress := "1.1.1.1",
                     createdAt := 0, expiresAt := 300000 })]
    users := [("u1", c4User)]
    emails := [] }

def c4Call : LoginCall :=
  { now := 60000
    email := "victim@example.com"
    password := "pw"
    providedOtp := some "123456"
    clientIp := "1.1.1.1"
    fingerprint := "deviceB"
    userAgent := "ua"
    passwordOk := true
    riskRequiresOtp := false
    generatedOtp := "654321"
    geoLocation := geoFallback ""
    newSessionId := "s9"
    rawRefreshToken := "r9" }

/-- C4: the claim states that an OTP verification with a live challenge,
matching issuing IP, and a differing device fingerprint fails with the
FingerprintMismatch reason and dispatches the dedicated notification.  The
deployed service stores no fingerprint at issuance and takes only three
parameters, so the controller's fourth argument (the typed code) is dropped
and the fingerprint argument is hashed in its place.  At the failing input —
challenge issued from device A with code 123456, verification from the same
IP with device B and the correct code — the login returns the Incorrect
reason, never FingerprintMismatch, and dispatches no notification, although
the controller carries a dead fingerprint-mismatch branch and a dedicated
email template for exactly this situation. -/
theorem c4_fingerprint_mismatch_unreachable :
    (login c4Db c4Call).2 = LoginOutcome.otpFailed OtpVerificationResultReason.otpIncorrect ∧
    (login c4Db c4Call).1.emails = [] ∧
    (login c4Db c4Call).2 ≠ LoginOutcome.otpFailed OtpVerificationResultReason.otpFingerprintMismatch := by
  decide

/-! ### C9 -/

/-- C9: every failing OTP verification (absent or expired challenge,
issuing-IP mismatch, incorrect code) leaves the whole store untouched, and
the challenge deletion together with the risk-score reset happens exactly on
the success path. -/
theorem c9_otp_failure_no_side_effects (db : Db) (now : Int)
    (identifier ipAddress providedOtp : String) :
    ((verifyOneTimePassword db now identifier ipAddress providedOtp).success = false →
      (verifyOneTimePassword db now identifier ipAddress providedOtp).db = db) ∧
    ((verifyOneTimePassword db now identifier ipAddress providedOtp).success = true →
      getA (verifyOneTimePassword db now identifier ipAddress providedOtp).db.otp identifier = none ∧
      (verifyOneTimePassword db now identifier ipAddress providedOtp).db.users =
        db.users.map (fun p => if p.1 = identifier then (p.1, { p.2 with riskScore := 0 }) else p) ∧
      (verifyOneTimePassword db now identifier ipAddress providedOtp).db.sessions = db.sessions ∧
      (verifyOneTimePassword db now identifier ipAddress providedOtp).db.emails = db.emails) := by
  unfold verifyOneTimePassword
  cases hget : otpGet db now identifier with
  | none => simp
  | some entry =>
    by_cases hip : entry.ipAddress ≠ ipAddress
    · simp [hip]
    · by_cases hcode : entry.otp ≠ hashOTP providedOtp
      · simp [hip, hcode]
      · simp [hip, hcode, updateUser, getA_delA_self]

/-- Witness for C9 at a concrete failing input: with an empty store the
verification fails and the store is returned unchanged. -/
theorem c9_otp_failure_no_side_effects_witness :
    (verifyOneTimePassword emptyDb 0 "u" "ip" "code").db = emptyDb :=
  (c9_otp_failure_no_side_effects emptyDb 0 "u" "ip" "code").1 (by decide)

/-! ### Characterization of successful validation -/

theorem findByIdAndUpdate_fun_id (l : List (String × SessionRec)) (i : Option String) :
    findByIdAndUpdate l i (fun r => r) = l := by
  cases i with
  | none => rfl
  | some i =>
    have hfun : (fun p : String × SessionRec => if p.1 = i then (p.1, p.2) else p) =
        fun p => p := by
      funext p
      cases p with
      | mk a b => simp
    simp [findByIdAndUpdate, hfun]

/-- Successful validation characterized: the remaining lifetime computed from
the returned snapshot is positive, the cache entry under the token is
rewritten with the capped sliding TTL, the durable store receives at most one
update command, and that command targets the snapshot's session identifier
with a field update preserving the user, the status and the token hash. -/
theorem verify_success_spec (geo : String → GeoPoint) (db : Db) (now : Int)
    (tok ip : String) (s : Snapshot)
    (h : (verifyAndUpdateUserSessionActivity geo db now tok ip).snapshot = some s) :
    0 < Int.ediv (s.refreshTokenExpiry - now) 1000 ∧
    (verifyAndUpdateUserSessionActivity geo db now tok ip).dbWrites ≤ 1 ∧
    ∃ f : SessionRec → SessionRec,
      (∀ r, (f r).userId = r.userId ∧ (f r).status = r.status ∧
            (f r).refreshToken = r.refreshToken) ∧
      (verifyAndUpdateUserSessionActivity geo db now tok ip).db =
        { db with
            redis := setA db.redis tok
              { entry := refreshedCacheEntry s ip now (decide (s.ipLastSeen ≠ ip)),
                expiresAt := now + 1000 * min SESSION.REDIS_TTL_SECONDS
                  (Int.ediv (s.refreshTokenExpiry - now) 1000) },
            sessions := findByIdAndUpdate db.sessions s.sessionId f } := by
  cases hres : resolveSnapshot db now tok with
  | none =>
    simp only [verifyAndUpdateUserSessionActivity, hres] at h
    exact absurd h (by simp)
  | some session =>
    simp only [verifyAndUpdateUserSessionActivity, hres] at h ⊢
    by_cases hrem : Int.ediv (session.refreshTokenExpiry - now) 1000 ≤ 0
    · rw [if_pos hrem] at h
      exact absurd h (by simp)
    · rw [if_neg hrem] at h ⊢
      by_cases hskip :
          (!staleActivity now session.lastActiveAt &&
            !decide (session.ipLastSeen ≠ ip)) = true
      · rw [if_pos hskip] at h ⊢
        have hs : session = s := by
          simpa using h
        subst hs
        refine ⟨by omega, by simp, fun r => r, by simp, ?_⟩
        simp [redisSetEx, findByIdAndUpdate_fun_id]
      · rw [if_neg hskip] at h ⊢
        have hs : session = s := by
          simpa using h
        subst hs
        by_cases hip : decide (session.ipLastSeen ≠ ip) = true
        · rw [if_pos hip]
          refine ⟨by omega, by simp, ?_⟩
          refine ⟨fun r =>
            { r with lastActiveAt := now, ipLastSeen := ip,
                     ipLastChangedAt := some now,
                     ipChangeCount := r.ipChangeCount + 1,
                     location := geo ip }, by simp, ?_⟩
          simp [redisSetEx]
        · rw [if_neg hip]
          refine ⟨by omega, by simp, ?_⟩
          refine ⟨fun r => { r with lastActiveAt := now }, by simp, ?_⟩
          simp [redisSetEx]

/-! ### C6 -/

/-- C6: every successful validation rewrites the cache entry under the token
with a TTL of exactly min(baseTTL, remaining) seconds, so the absolute cache
expiry never passes the session's refresh-token expiry and the cache alone
can never keep an expired refresh token alive. -/
theorem c6_cache_ttl_capped (geo : String → GeoPoint) (db : Db) (now : Int)
    (tok ip : String) (s : Snapshot)
    (h : (verifyAndUpdateUserSessionActivity geo db now tok ip).snapshot = some s) :
    ∃ cv : CacheVal,
      getA (verifyAndUpdateUserSessionActivity geo db now tok ip).db.redis tok = some cv ∧
      cv.expiresAt = now + 1000 * min SESSION.REDIS_TTL_SECONDS
        (Int.ediv (s.refreshTokenExpiry - now) 1000) ∧
      cv.entry.refreshTokenExpiry = s.refreshTokenExpiry ∧
      cv.expiresAt ≤ s.refreshTokenExpiry := by
  obtain ⟨hpos, _, f, hf, hdb⟩ := verify_success_spec geo db now tok ip s h
  rw [hdb]
  refine ⟨_, getA_setA_self _ _ _, rfl, rfl, ?_⟩
  have hmin : min SESSION.REDIS_TTL_SECONDS (Int.ediv (s.refreshTokenExpiry - now) 1000) ≤
      Int.ediv (s.refreshTokenExpiry - now) 1000 := min_le_right _ _
  have hmul : 1000 * min SESSION.REDIS_TTL_SECONDS (Int.ediv (s.refreshTokenExpiry - now) 1000) ≤
      1000 * Int.ediv (s.refreshTokenExpiry - now) 1000 := by
    exact mul_le_mul_of_nonneg_left hmin (by norm_num)
  have hmod : 0 ≤ (s.refreshTokenExpiry - now) % 1000 :=
    Int.emod_nonneg _ (by norm_num)
  have hdivmod : 1000 * Int.ediv (s.refreshTokenExpiry - now) 1000 +
      (s.refreshTokenExpiry - now) % 1000 = s.refreshTokenExpiry - now :=
    Int.ediv_add_emod _ _
  show now + 1000 * min SESSION.REDIS_TTL_SECONDS
      (Int.ediv (s.refreshTokenExpiry - now) 1000) ≤ s.refreshTokenExpiry
  omega

def c6Entry : Snapshot :=
  { sessionId := some "s1"
    refreshTokenExpiry := 10000000
    fingerprint := some "f1"
    ipLastSeen := "1.1.1.1"
    ipLastChangedAt := none
    lastActiveAt := some 40000
    location := none }

def c6Db : Db :=
  { sessions := []
    redis := [("tk", { entry := c6Entry, expiresAt := 100000 })]
    otp := []
    users := []
    emails := [] }

/-- Witness for C6 at a concrete successful validation. -/
theorem c6_cache_ttl_capped_witness :
    ∃ cv : CacheVal,
      getA (verifyAndUpdateUserSessionActivity geoFallback c6Db 50000 "tk" "1.1.1.1").db.redis "tk" = some cv ∧
      cv.expiresAt = 50000 + 1000 * min SESSION.REDIS_TTL_SECONDS
        (Int.ediv (c6Entry.refreshTokenExpiry - 50000) 1000) ∧
      cv.entry.refreshTokenExpiry = c6Entry.refreshTokenExpiry ∧
      cv.expiresAt ≤ c6Entry.refreshTokenExpiry :=
  c6_cache_ttl_capped geoFallback c6Db 50000 "tk" "1.1.1.1" c6Entry (by decide)

/-! ### Session-count lemmas -/

@[simp]
theorem sessions_sendEmail (db : Db) (k : EmailKind) :
    (sendEmail db k).sessions = db.sessions := rfl

@[simp]
theorem sessions_updateUser (db : Db) (uid : String) (f : UserRec → UserRec) :
    (updateUser db uid f).sessions = db.sessions := rfl

@[simp]
theorem sessions_generateAndStoreOtp (db : Db) (now : Int) (i ip pw : String) :
    (generateAndStoreOtp db now i ip pw).sessions = db.sessions := rfl

@[simp]
theorem sessions_redisDel (db : Db) (k : String) :
    (redisDel db k).sessions = db.sessions := rfl

@[simp]
theorem sessions_redisSetEx (db : Db) (now : Int) (k : String) (e : Snapshot) (t : Int) :
    (redisSetEx db now k e t).sessions = db.sessions := rfl

theorem sessions_verifyOneTimePassword (db : Db) (now : Int) (i ip pw : String) :
    (verifyOneTimePassword db now i ip pw).db.sessions = db.sessions := by
  unfold verifyOneTimePassword
  cases otpGet db now i with
  | none => rfl
  | some entry =>
    by_cases hip : entry.ipAddress ≠ ip
    · simp [hip]
    · by_cases hcode : entry.otp ≠ hashOTP pw
      · simp [hip, hcode]
      · simp [hip, hcode, updateUser]

theorem length_filter_findByIdAndUpdate (l : List (String × SessionRec))
    (i : Option String) (f : SessionRec → SessionRec) (p : SessionRec → Bool)
    (hf : ∀ r, p (f r) = p r) :
    ((findByIdAndUpdate l i f).filter (fun q => p q.2)).length =
      (l.filter (fun q => p q.2)).length := by
  cases i with
  | none => rfl
  | some i =>
    induction l with
    | nil => rfl
    | cons a t ih =>
      by_cases hai : a.1 = i
      · simp only [findByIdAndUpdate, List.map_cons, if_pos hai] at *
        by_cases hp : p a.2 = true
        · simp [List.filter_cons, hf, hp, ih]
        · simp only [Bool.not_eq_true] at hp
          simp [List.filter_cons, hf, hp, ih]
      · simp only [findByIdAndUpdate, List.map_cons, if_neg hai] at *
        by_cases hp : p a.2 = true
        · simp [List.filter_cons, hp, ih]
        · simp only [Bool.not_eq_true] at hp
          simp [List.filter_cons, hp, ih]

theorem countActiveList_findByIdAndUpdate (l : List (String × SessionRec))
    (i : Option String) (f : SessionRec → SessionRec)
    (hf : ∀ r, (f r).userId = r.userId ∧ (f r).status = r.status) (u : String) :
    countActiveList (findByIdAndUpdate l i f) u = countActiveList l u := by
  unfold countActiveList
  exact length_filter_findByIdAndUpdate l i f
    (fun r => decide (r.userId = u ∧ r.status = SessionStatus.active))
    (fun r => by simp only [(hf r).1, (hf r).2])

theorem countActiveList_cons (k : String) (r : SessionRec)
    (l : List (String × SessionRec)) (u : String) :
    countActiveList ((k, r) :: l) u =
      countActiveList l u +
        (if r.userId = u ∧ r.status = SessionStatus.active then 1 else 0) := by
  by_cases h : r.userId = u ∧ r.status = SessionStatus.active
  · simp [countActiveList, List.filter_cons, h]
  · simp [countActiveList, List.filter_cons, h]

theorem countActiveList_applyRetention (db : Db) (now : Int)
    (l : List (String × SessionRec)) (u : String) :
    countActiveList (applyRetention db now l).sessions u =
      countActiveList db.sessions u := by
  induction l generalizing db with
  | nil => rfl
  | cons p rest ih =>
    simp only [applyRetention]
    rw [ih]
    by_cases hd : p.2.refreshToken ≠ ""
    · rw [if_pos hd]
      exact countActiveList_findByIdAndUpdate db.sessions (some p.1)
        (fun r => { r with expireAt := some (retentionExpireAt now p.2.lastActiveAt) })
        (fun r => ⟨rfl, rfl⟩) u
    · rw [if_neg hd]
      exact countActiveList_findByIdAndUpdate db.sessions (some p.1)
        (fun r => { r with expireAt := some (retentionExpireAt now p.2.lastActiveAt) })
        (fun r => ⟨rfl, rfl⟩) u

theorem countActive_createUserSession (db : Db) (now : Int)
    (sid uid ip ua fp : String) (g : GeoPoint) (tok : String) (leg : Bool) (u : String) :
    countActiveList (createUserSession db now sid uid ip ua fp g tok leg).1.sessions u =
      countActiveList db.sessions u + (if uid = u then 1 else 0) := by
  unfold createUserSession
  simp only [sessions_redisSetEx]
  rw [countActiveList_cons]
  have hcond : ((uid = u ∧ SessionStatus.active = SessionStatus.active)) ↔ (uid = u) := by
    constructor
    · exact fun hc => hc.1
    · exact fun hc => ⟨hc, rfl⟩
  by_cases hover : (sortByKeyDesc (fun p => p.2.lastActiveAt)
      (db.sessions.filter (fun p => decide (p.2.userId = uid ∧
        (p.2.status = SessionStatus.inactive ∨ p.2.status = SessionStatus.revoked))))).length >
      SESSION.MAX_RETAINED_INACTIVE_SESSIONS
  · rw [if_pos hover, countActiveList_applyRetention]
    by_cases hu : uid = u
    · rw [if_pos (hcond.mpr hu), if_pos hu]
    · rw [if_neg (fun hc => hu (hcond.mp hc)), if_neg hu]
  · rw [if_neg hover]
    by_cases hu : uid = u
    · rw [if_pos (hcond.mpr hu), if_pos hu]
    · rw [if_neg (fun hc => hu (hcond.mp hc)), if_neg hu]

/-! ### C2 -/

/-- Serialized executions of the login flow. -/
def runLogins (db : Db) : List LoginCall → Db
  | [] => db
  | c :: rest => runLogins (login db c).1 rest

theorem countActive_finishLogin (db : Db) (c : LoginCall) (uid u : String) :
    countActiveList (finishLogin db c uid).1.sessions u =
      countActiveList db.sessions u + (if uid = u then 1 else 0) := by
  unfold finishLogin
  simp only [sessions_updateUser]
  exact countActive_createUserSession db c.now c.newSessionId uid c.clientIp
    c.userAgent c.fingerprint c.geoLocation c.rawRefreshToken false u

/-- One login call keeps the per-user ACTIVE count at or below the cap. -/
theorem login_cap_step (db : Db) (c : LoginCall) (u : String)
    (h : countActiveList db.sessions u ≤ AUTH.MAX_ACTIVE_SESSIONS) :
    countActiveList (login db c).1.sessions u ≤ AUTH.MAX_ACTIVE_SESSIONS := by
  unfold login
  by_cases hbad : c.email = "" ∨ c.password = ""
  · rw [if_pos hbad]; exact h
  · rw [if_neg hbad]
    cases hfind : findUserByEmail db c.email with
    | none => exact h
    | some found =>
      simp only
      by_cases hpw : (!c.passwordOk) = true
      · rw [if_pos hpw]; exact h
      · rw [if_neg hpw]
        by_cases hcap : getActiveSessionsCount db found.1 ≥ AUTH.MAX_ACTIVE_SESSIONS
        · rw [if_pos hcap]; exact h
        · rw [if_neg hcap]
          have hlt : countActiveList db.sessions found.1 < AUTH.MAX_ACTIVE_SESSIONS := by
            unfold getActiveSessionsCount at hcap
            omega
          cases hotp : c.providedOtp with
          | some code =>
            simp only
            by_cases hvr : (!(verifyOneTimePassword db c.now found.1 c.clientIp c.fingerprint).success) = true
            · rw [if_pos hvr]
              by_cases hreason : (verifyOneTimePassword db c.now found.1 c.clientIp c.fingerprint).reason =
                  OtpVerificationResultReason.otpFingerprintMismatch
              · rw [if_pos hreason]
                simpa [sessions_verifyOneTimePassword] using h
              · rw [if_neg hreason]
                simpa [sessions_verifyOneTimePassword] using h
            · rw [if_neg hvr]
              rw [countActive_finishLogin]
              rw [sessions_verifyOneTimePassword]
              by_cases hu : found.1 = u
              · subst hu
                rw [if_pos rfl]
                omega
              · rw [if_neg hu]
                omega
          | none =>
            simp only
            by_cases hrisk : c.riskRequiresOtp ∨ (!found.2.isVerified) = true
            · rw [if_pos hrisk]
              simpa using h
            · rw [if_neg hrisk]
              rw [countActive_finishLogin]
              by_cases hu : found.1 = u
              · subst hu
                rw [if_pos rfl]
                omega
              · rw [if_neg hu]
                omega

/-- C2: for every serialized sequence of login calls, the per-user count of
ACTIVE sessions never exceeds the configured cap, and whenever the count is
already at or above the cap a login with valid credentials refuses with the
session-cap outcome and creates nothing. -/
theorem c2_active_sessions_cap_invariant (db : Db) (calls : List LoginCall)
    (u : String)
    (hstart : getActiveSessionsCount db u ≤ AUTH.MAX_ACTIVE_SESSIONS) :
    getActiveSessionsCount (runLogins db calls) u ≤ AUTH.MAX_ACTIVE_SESSIONS ∧
    (∀ c : LoginCall, ∀ found : String × UserRec,
      ¬ (c.email = "" ∨ c.password = "") →
      findUserByEmail db c.email = some found →
      c.passwordOk = true →
      AUTH.MAX_ACTIVE_SESSIONS ≤ getActiveSessionsCount db found.1 →
      (login db c).2 = LoginOutcome.sessionCapExceeded ∧
      (login db c).1.sessions = db.sessions) := by
  constructor
  · unfold getActiveSessionsCount at hstart ⊢
    induction calls generalizing db with
    | nil => exact hstart
    | cons c rest ih =>
      exact ih (login db c).1 (login_cap_step db c u hstart)
  · intro c found hbad hfind hpw hcap
    unfold login
    rw [if_neg hbad, hfind]
    simp only
    have hpw' : (!c.passwordOk) = false := by rw [hpw]; rfl
    rw [hpw', if_neg (by simp)]
    rw [if_pos (by exact hcap)]
    exact ⟨rfl, rfl⟩

def c2User : UserRec :=
  { email := "user@example.com", password := "pw", role := "user",
    isVerified := true, riskScore := 0 }

def c2Db : Db :=
  { sessions := [], redis := [], otp := [], users := [("u1", c2User)], emails := [] }

def c2Call : LoginCall :=
  { now := 1000
    email := "user@example.com"
    password := "pw"
    providedOtp := none
    clientIp := "1.1.1.1"
    fingerprint := "f1"
    userAgent := "ua"
    passwordOk := true
    riskRequiresOtp := false
    generatedOtp := "000000"
    geoLocation := geoFallback ""
    newSessionId := "s1"
    rawRefreshToken := "t1" }

/-- Witness for C2: four consecutive successful-login attempts from an empty
store leave at most the configured cap of ACTIVE sessions. -/
theorem c2_active_sessions_cap_invariant_witness :
    getActiveSessionsCount (runLogins c2Db [c2Call, c2Call, c2Call, c2Call]) "u1" ≤
      AUTH.MAX_ACTIVE_SESSIONS :=
  (c2_active_sessions_cap_invariant c2Db [c2Call, c2Call, c2Call, c2Call] "u1"
    (by decide)).1

/-! ### C10 -/

theorem users_applyRetention (db : Db) (now : Int)
    (l : List (String × SessionRec)) :
    (applyRetention db now l).users = db.users := by
  induction l generalizing db with
  | nil => rfl
  | cons p rest ih =>
    simp only [applyRetention]
    rw [ih]
    by_cases hd : p.2.refreshToken ≠ "" <;> simp [hd, redisDel]

theorem users_createUserSession (db : Db) (now : Int)
    (sid uid ip ua fp : String) (g : GeoPoint) (tok : String) (leg : Bool) :
    (createUserSession db now sid uid ip ua fp g tok leg).1.users = db.users := by
  unfold createUserSession
  simp only [sessions_redisSetEx]
  by_cases hover : (sortByKeyDesc (fun p => p.2.lastActiveAt)
      (db.sessions.filter (fun p => decide (p.2.userId = uid ∧
        (p.2.status = SessionStatus.inactive ∨ p.2.status = SessionStatus.revoked))))).length >
      SESSION.MAX_RETAINED_INACTIVE_SESSIONS
  · rw [if_pos hover]
    show (applyRetention db now _).users = db.users
    rw [users_applyRetention]
  · rw [if_neg hover]
    rfl

theorem users_verifyOneTimePassword_found (db : Db) (now : Int) (i ip pw : String)
    (u : UserRec) (hu : getA db.users i = some u) :
    ∃ u', getA (verifyOneTimePassword db now i ip pw).db.users i = some u' := by
  cases hget : otpGet db now i with
  | none =>
    simp only [verifyOneTimePassword, hget]
    exact ⟨u, hu⟩
  | some entry =>
    simp only [verifyOneTimePassword, hget]
    by_cases hip : entry.ipAddress ≠ ip
    · rw [if_pos hip]
      exact ⟨u, hu⟩
    · rw [if_neg hip]
      by_cases hcode : entry.otp ≠ hashOTP pw
      · rw [if_pos hcode]
        exact ⟨u, hu⟩
      · rw [if_neg hcode]
        refine ⟨{ u with riskScore := 0 }, ?_⟩
        have hup := getA_updateUser { db with otp := delA db.otp i } i i
          (fun x => { x with riskScore := 0 })
        rw [hup, if_pos rfl]
        show ((getA db.users i).map fun x => { x with riskScore := 0 }) = _
        rw [hu]
        rfl

/-- C10: every login that completes with a session created (either through
the OTP branch or the risk branch) ends with the user record's isVerified
flag set to true. -/
theorem c10_login_success_sets_verified (db : Db) (c : LoginCall)
    (found : String × UserRec) (sid : String)
    (hfind : findUserByEmail db c.email = some found)
    (hgetA : getA db.users found.1 = some found.2)
    (hsucc : (login db c).2 = LoginOutcome.success sid) :
    ∃ u', getA (login db c).1.users found.1 = some u' ∧ u'.isVerified = true := by
  unfold login at hsucc ⊢
  by_cases hbad : c.email = "" ∨ c.password = ""
  · rw [if_pos hbad] at hsucc
    exact absurd hsucc (by simp)
  · rw [if_neg hbad] at hsucc ⊢
    rw [hfind] at hsucc ⊢
    simp only at hsucc ⊢
    by_cases hpw : (!c.passwordOk) = true
    · rw [if_pos hpw] at hsucc
      exact absurd hsucc (by simp)
    · rw [if_neg hpw] at hsucc ⊢
      by_cases hcap : getActiveSessionsCount db found.1 ≥ AUTH.MAX_ACTIVE_SESSIONS
      · rw [if_pos hcap] at hsucc
        exact absurd hsucc (by simp)
      · rw [if_neg hcap] at hsucc ⊢
        cases hotp : c.providedOtp with
        | some code =>
          rw [hotp] at hsucc
          simp only at hsucc ⊢
          by_cases hvr : (!(verifyOneTimePassword db c.now found.1 c.clientIp c.fingerprint).success) = true
          · rw [if_pos hvr] at hsucc
            by_cases hreason : (verifyOneTimePassword db c.now found.1 c.clientIp c.fingerprint).reason =
                OtpVerificationResultReason.otpFingerprintMismatch
            · rw [if_pos hreason] at hsucc
              exact absurd hsucc (by simp)
            · rw [if_neg hreason] at hsucc
              exact absurd hsucc (by simp)
          · rw [if_neg hvr]
            obtain ⟨u0, hu0⟩ := users_verifyOneTimePassword_found db c.now found.1
              c.clientIp c.fingerprint found.2 hgetA
            unfold finishLogin
            simp only
            rw [getA_updateUser, if_pos rfl, users_createUserSession, hu0]
            exact ⟨_, rfl, rfl⟩
        | none =>
          rw [hotp] at hsucc
          simp only at hsucc ⊢
          by_cases hrisk : c.riskRequiresOtp = true ∨ (!found.2.isVerified) = true
          · rw [if_pos hrisk] at hsucc
            exact absurd hsucc (by simp)
          · rw [if_neg hrisk]
            unfold finishLogin
            simp only
            rw [getA_updateUser, if_pos rfl, users_createUserSession, hgetA]
            exact ⟨_, rfl, rfl⟩

/-- Witness for C10: a concrete login through the risk branch that creates a
session and ends with the verification flag set. -/
theorem c10_login_success_sets_verified_witness :
    ∃ u', getA (login c2Db c2Call).1.users "u1" = some u' ∧ u'.isVerified = true :=
  c10_login_success_sets_verified c2Db c2Call ("u1", c2User) "s1"
    (by decide) (by decide) (by decide)

/-! ### C8 -/

theorem getA_cons_self {α : Type} (k : String) (v : α) (l : List (String × α)) :
    getA ((k, v) :: l) k = some v := by
  simp [getA, List.find?_cons]

theorem length_findByIdAndUpdate (l : List (String × SessionRec))
    (i : Option String) (f : SessionRec → SessionRec) :
    (findByIdAndUpdate l i f).length = l.length := by
  cases i with
  | none => rfl
  | some i => simp [findByIdAndUpdate]

theorem sessions_length_applyRetention (db : Db) (now : Int)
    (l : List (String × SessionRec)) :
    (applyRetention db now l).sessions.length = db.sessions.length := by
  induction l generalizing db with
  | nil => rfl
  | cons p rest ih =>
    simp only [applyRetention]
    rw [ih]
    by_cases hd : p.2.refreshToken ≠ "" <;>
      simp [hd, redisDel, length_findByIdAndUpdate]

theorem createUserSession_sessions_spec (db : Db) (now : Int)
    (sid uid ip ua fp : String) (g : GeoPoint) (tok : String) (leg : Bool) :
    (createUserSession db now sid uid ip ua fp g tok leg).1.sessions.length =
      db.sessions.length + 1 ∧
    getA (createUserSession db now sid uid ip ua fp g tok leg).1.sessions sid =
      some (createUserSession db now sid uid ip ua fp g tok leg).2 := by
  unfold createUserSession
  simp only [sessions_redisSetEx]
  by_cases hover : (sortByKeyDesc (fun p => p.2.lastActiveAt)
      (db.sessions.filter (fun p => decide (p.2.userId = uid ∧
        (p.2.status = SessionStatus.inactive ∨ p.2.status = SessionStatus.revoked))))).length >
      SESSION.MAX_RETAINED_INACTIVE_SESSIONS
  · rw [if_pos hover]
    exact ⟨by simp [sessions_length_applyRetention], getA_cons_self _ _ _⟩
  · rw [if_neg hover]
    exact ⟨by simp, getA_cons_self _ _ _⟩

/-- C8: a single presentation of a valid legacy access token with no
embedded session id creates exactly one new session marked isLegacy, bumps
the user's standing risk score by the migration penalty of 20 exactly once,
and lets the request proceed with a fresh token pair bound to the new
session. -/
theorem c8_legacy_migration (db : Db) (now : Int)
    (uid clientIp userAgent fp newToken newSid : String) (g : GeoPoint)
    (user : UserRec) (huser : getA db.users uid = some user) :
    (authenticateLegacy db now uid clientIp userAgent fp g newToken newSid).1.sessions.length =
      db.sessions.length + 1 ∧
    (∃ nr : SessionRec,
      getA (authenticateLegacy db now uid clientIp userAgent fp g newToken newSid).1.sessions newSid =
        some nr ∧
      nr.isLegacy = true ∧ nr.status = SessionStatus.active ∧ nr.userId = uid) ∧
    getA (authenticateLegacy db now uid clientIp userAgent fp g newToken newSid).1.users uid =
      some { user with riskScore := user.riskScore + 20 } ∧
    (authenticateLegacy db now uid clientIp userAgent fp g newToken newSid).2 =
      AuthOutcome.allowLegacy newSid newToken := by
  obtain ⟨hlen, hget⟩ := createUserSession_sessions_spec db now newSid uid clientIp
    userAgent fp g newToken true
  refine ⟨?_, ⟨(createUserSession db now newSid uid clientIp userAgent fp g newToken true).2,
    ?_, rfl, rfl, rfl⟩, ?_, rfl⟩
  · show (updateUser _ uid _).sessions.length = _
    rw [sessions_updateUser]
    exact hlen
  · show getA (updateUser _ uid _).sessions newSid = _
    rw [sessions_updateUser]
    exact hget
  · show getA (updateUser _ uid _).users uid = _
    rw [getA_updateUser, if_pos rfl, users_createUserSession, huser]
    rfl

/-- Witness for C8 at a concrete state: one user, empty session store. -/
theorem c8_legacy_migration_witness :
    (authenticateLegacy c2Db 1000 "u1" "1.1.1.1" "ua" "f1" (geoFallback "") "t1" "s1").1.sessions.length =
      c2Db.sessions.length + 1 ∧
    (∃ nr : SessionRec,
      getA (authenticateLegacy c2Db 1000 "u1" "1.1.1.1" "ua" "f1" (geoFallback "") "t1" "s1").1.sessions "s1" =
        some nr ∧
      nr.isLegacy = true ∧ nr.status = SessionStatus.active ∧ nr.userId = "u1") ∧
    getA (authenticateLegacy c2Db 1000 "u1" "1.1.1.1" "ua" "f1" (geoFallback "") "t1" "s1").1.users "u1" =
      some { c2User with riskScore := c2User.riskScore + 20 } ∧
    (authenticateLegacy c2Db 1000 "u1" "1.1.1.1" "ua" "f1" (geoFallback "") "t1" "s1").2 =
      AuthOutcome.allowLegacy "s1" "t1" :=
  c8_legacy_migration c2Db 1000 "u1" "1.1.1.1" "ua" "f1" "t1" "s1" (geoFallback "")
    c2User (by decide)

/-! ### C5 -/

theorem verify_after_revoke_none (geo2 : String → GeoPoint) (dbx : Db)
    (later : Int) (tok laterIp : String)
    (hredis : getA dbx.redis tok = none)
    (hnone : mongoFindOneActiveByToken dbx.sessions tok = none) :
    (verifyAndUpdateUserSessionActivity geo2 dbx later tok laterIp).snapshot = none := by
  have h1 : redisGet dbx later tok = none := by
    unfold redisGet
    rw [hredis]
  have h2 : resolveSnapshot dbx later tok = none := by
    unfold resolveSnapshot
    rw [h1, hnone]
    rfl
  simp only [verifyAndUpdateUserSessionActivity, h2]

theorem status_after_revoke_target (l : List (String × SessionRec)) (i : String)
    (r' : SessionRec)
    (h : (i, r') ∈ findByIdAndUpdate l (some i)
      (fun r => { r with status := SessionStatus.revoked })) :
    r'.status = SessionStatus.revoked := by
  simp only [findByIdAndUpdate, List.mem_map] at h
  obtain ⟨p, hp, heq⟩ := h
  by_cases hpi : p.1 = i
  · rw [if_pos hpi] at heq
    have hsnd := congrArg Prod.snd heq
    simp only at hsnd
    rw [← hsnd]
  · rw [if_neg hpi] at heq
    exact absurd (congrArg Prod.fst heq) hpi

/-- C5: every authenticated request whose refresh token validates but whose
request-derived fingerprint differs from the fingerprint stored on the
session is rejected with the authentication error, the durable session
transitions to REVOKED with its cache entry deleted, and every subsequent
validation of the same refresh token returns NotFound.  (In the deployed
middleware the comparison reads the absent snapshot property
deviceFingerprint, so the hijack verdict fires for every mismatching
fingerprint as the claim requires.) -/
theorem c5_fingerprint_mismatch_revokes
    (geo geo2 : String → GeoPoint) (db : Db) (now later : Int)
    (uid sessionId tokenHash clientIp laterIp deviceFingerprint : String)
    (travelExceeds : Bool) (s : Snapshot)
    (hval : (verifyAndUpdateUserSessionActivity geo db now tokenHash clientIp).snapshot = some s)
    (hfp : s.fingerprint ≠ some deviceFingerprint)
    (hbind : ∀ k r, (k, r) ∈ db.sessions → r.refreshToken = tokenHash → k = sessionId)
    (hdoc : ∃ r0, getA db.sessions sessionId = some r0 ∧ r0.refreshToken = tokenHash) :
    (authenticateWithSession geo db now uid sessionId tokenHash clientIp deviceFingerprint travelExceeds).2 =
      AuthOutcome.reject "Session invalid or expired. Please log in again." ∧
    (∀ r', (sessionId, r') ∈
        (authenticateWithSession geo db now uid sessionId tokenHash clientIp deviceFingerprint travelExceeds).1.sessions →
      r'.status = SessionStatus.revoked) ∧
    (verifyAndUpdateUserSessionActivity geo2
      (authenticateWithSession geo db now uid sessionId tokenHash clientIp deviceFingerprint travelExceeds).1
      later tokenHash laterIp).snapshot = none := by
  obtain ⟨hpos, hw, f, hfpres, hdbeq⟩ := verify_success_spec geo db now tokenHash clientIp s hval
  obtain ⟨r0, hget0, htok0⟩ := hdoc
  have hsessEq : (verifyAndUpdateUserSessionActivity geo db now tokenHash clientIp).db.sessions =
      findByIdAndUpdate db.sessions s.sessionId f := by rw [hdbeq]
  have hget1 : ∃ r1, getA (verifyAndUpdateUserSessionActivity geo db now tokenHash clientIp).db.sessions sessionId =
      some r1 ∧ r1.refreshToken = tokenHash := by
    rw [hsessEq]
    cases s.sessionId with
    | none => exact ⟨r0, hget0, htok0⟩
    | some i =>
      rw [getA_findByIdAndUpdate]
      by_cases hii : sessionId = i
      · rw [if_pos hii, hget0]
        exact ⟨f r0, rfl, by rw [(hfpres r0).2.2, htok0]⟩
      · rw [if_neg hii]
        exact ⟨r0, hget0, htok0⟩
  obtain ⟨r1, hget1', htok1⟩ := hget1
  simp only [authenticateWithSession, hval]
  rw [if_pos (by simp [snapshotDeviceFingerprint])]
  have hrev : revokeUserSession
      (sendEmail (verifyAndUpdateUserSessionActivity geo db now tokenHash clientIp).db
        EmailKind.sessionHijackDetected) sessionId =
      redisDel
        { sendEmail (verifyAndUpdateUserSessionActivity geo db now tokenHash clientIp).db
            EmailKind.sessionHijackDetected with
          sessions := findByIdAndUpdate
            (verifyAndUpdateUserSessionActivity geo db now tokenHash clientIp).db.sessions
            (some sessionId) (fun r => { r with status := SessionStatus.revoked }) }
        r1.refreshToken := by
    unfold revokeUserSession
    have hg : getA (sendEmail (verifyAndUpdateUserSessionActivity geo db now tokenHash clientIp).db
        EmailKind.sessionHijackDetected).sessions sessionId = some r1 := hget1'
    rw [hg]
    rfl
  rw [hrev]
  refine ⟨rfl, ?_, ?_⟩
  · intro r' hmem
    exact status_after_revoke_target _ sessionId r' hmem
  · refine verify_after_revoke_none geo2 _ later tokenHash laterIp ?_ ?_
    · show getA (delA _ r1.refreshToken) tokenHash = none
      rw [htok1]
      exact getA_delA_self _ _
    · show mongoFindOneActiveByToken
        (findByIdAndUpdate
          (verifyAndUpdateUserSessionActivity geo db now tokenHash clientIp).db.sessions
          (some sessionId) (fun r => { r with status := SessionStatus.revoked }))
        tokenHash = none
      unfold mongoFindOneActiveByToken
      rw [List.find?_eq_none]
      intro p hp
      obtain ⟨k, r⟩ := p
      simp only [decide_eq_true_eq, not_and]
      intro htokp
      obtain ⟨r1', hmem1, hcase1⟩ := mem_findByIdAndUpdate _ (some sessionId) _ k r hp
      rw [hsessEq] at hmem1
      obtain ⟨rb, hmemb, hcaseb⟩ := mem_findByIdAndUpdate _ s.sessionId f k r1' hmem1
      have htok1' : r1'.refreshToken = tokenHash := by
        cases hcase1 with
        | inl hc => rw [← hc]; exact htokp
        | inr hc => rw [hc] at htokp; exact htokp
      have htokb : rb.refreshToken = tokenHash := by
        cases hcaseb with
        | inl hc => rw [← hc]; exact htok1'
        | inr hc => rw [hc, (hfpres rb).2.2] at htok1'; exact htok1'
      have hkey : k = sessionId := hbind k rb hmemb htokb
      subst hkey
      have hstat := status_after_revoke_target _ k r hp
      rw [hstat]
      intro hcontra
      exact absurd hcontra (by decide)

def c5Snapshot : Snapshot :=
  { sessionId := some "s1"
    refreshTokenExpiry := 10000000
    fingerprint := some "fGood"
    ipLastSeen := "1.1.1.1"
    ipLastChangedAt := none
    lastActiveAt := some 40000
    location := none }

def c5SessionRec : SessionRec :=
  { userId := "u1"
    userAgent := "ua"
    fingerprint := "fGood"
    deviceName := "ua"
    ipFirstSeen := "1.1.1.1"
    ipLastSeen := "1.1.1.1"
    ipLastChangedAt := none
    ipChangeCount := 0
    location := geoFallback ""
    refreshToken := "tokenhash:t5"
    refreshTokenExpiry := 10000000
    lastActiveAt := 40000
    status := SessionStatus.active
    isLegacy := false
    isSuspicious := false
    expireAt := none }

def c5Db : Db :=
  { sessions := [("s1", c5SessionRec)]
    redis := [("tokenhash:t5", { entry := c5Snapshot, expiresAt := 100000 })]
    otp := []
    users := []
    emails := [] }

/-- Witness for C5 at a concrete hijack attempt: the stored fingerprint is
fGood, the presented one is fEvil; the request is rejected, the session is
revoked, and a later validation of the same token at any of these concrete
parameters returns NotFound. -/
theorem c5_fingerprint_mismatch_revokes_witness :
    (authenticateWithSession geoFallback c5Db 50000 "u1" "s1" "tokenhash:t5" "1.1.1.1" "fEvil" false).2 =
      AuthOutcome.reject "Session invalid or expired. Please log in again." ∧
    (∀ r', ("s1", r') ∈
        (authenticateWithSession geoFallback c5Db 50000 "u1" "s1" "tokenhash:t5" "1.1.1.1" "fEvil" false).1.sessions →
      r'.status = SessionStatus.revoked) ∧
    (verifyAndUpdateUserSessionActivity geoFallback
      (authenticateWithSession geoFallback c5Db 50000 "u1" "s1" "tokenhash:t5" "1.1.1.1" "fEvil" false).1
      60000 "tokenhash:t5" "1.1.1.1").snapshot = none :=
  c5_fingerprint_mismatch_revokes geoFallback geoFallback c5Db 50000 60000
    "u1" "s1" "tokenhash:t5" "1.1.1.1" "1.1.1.1" "fEvil" false c5Snapshot
    (by decide) (by decide)
    (by
      intro k r hmem htok
      simp only [c5Db, List.mem_singleton] at hmem
      exact congrArg Prod.fst hmem)
    ⟨c5SessionRec, by decide, by decide⟩

/-! ### C7 -/

def c7Entry : Snapshot :=
  { sessionId := some "s1"
    refreshTokenExpiry := 1005500
    fingerprint := some "f1"
    ipLastSeen := "1.1.1.1"
    ipLastChangedAt := none
    lastActiveAt := some 999000
    location := none }

def c7SessionRec : SessionRec :=
  { userId := "u1"
    userAgent := "ua"
    fingerprint := "f1"
    deviceName := "ua"
    ipFirstSeen := "1.1.1.1"
    ipLastSeen := "1.1.1.1"
    ipLastChangedAt := none
    ipChangeCount := 0
    location := geoFallback ""
    refreshToken := "tokenhash:t7"
    refreshTokenExpiry := 1005500
    lastActiveAt := 999000
    status := SessionStatus.active
    isLegacy := false
    isSuspicious := false
    expireAt := none }

def c7Db : Db :=
  { sessions := [("s1", c7SessionRec)]
    redis := [("tokenhash:t7", { entry := c7Entry, expiresAt := 1800000 })]
    otp := []
    users := []
    emails := [] }

/-- C7, counterexample: the claim states that two validation calls on the
same token within one durable-write throttle interval with the same client
IP perform at most one durable write and that the second call leaves the
durable record unchanged.  At this input — the cached entry still holds the
previous IP, the refresh token has 5.5 seconds of life left, and the two
calls arrive 4.9 seconds apart with the same client IP — the first call
issues one durable write (IP change) and the second call, finding the token
expired, issues a second durable write that flips the session to INACTIVE:
two durable writes in one throttle interval, and the second call mutates the
durable record. -/
theorem c7_two_durable_writes_counterexample :
    (1004900 - 1000000 : Int) ≤ SESSION.ACTIVITY_DB_UPDATE_INTERVAL_MS ∧
    (verifyAndUpdateUserSessionActivity geoFallback c7Db 1000000 "tokenhash:t7" "2.2.2.2").dbWrites = 1 ∧
    (verifyAndUpdateUserSessionActivity geoFallback
      (verifyAndUpdateUserSessionActivity geoFallback c7Db 1000000 "tokenhash:t7" "2.2.2.2").db
      1004900 "tokenhash:t7" "2.2.2.2").dbWrites = 1 ∧
    ((getA (verifyAndUpdateUserSessionActivity geoFallback
      (verifyAndUpdateUserSessionActivity geoFallback c7Db 1000000 "tokenhash:t7" "2.2.2.2").db
      1004900 "tokenhash:t7" "2.2.2.2").db.sessions "s1").map SessionRec.status) =
      some SessionStatus.inactive := by
  decide

theorem verify_snapshot_eq_resolve (geoX : String → GeoPoint) (dbx : Db)
    (t : Int) (tok ip : String) (s : Snapshot)
    (h : (verifyAndUpdateUserSessionActivity geoX dbx t tok ip).snapshot = some s) :
    resolveSnapshot dbx t tok = some s := by
  cases hres : resolveSnapshot dbx t tok with
  | none =>
    simp only [verifyAndUpdateUserSessionActivity, hres] at h
    exact absurd h (by simp)
  | some e =>
    simp only [verifyAndUpdateUserSessionActivity, hres] at h
    by_cases hrem : Int.ediv (e.refreshTokenExpiry - t) 1000 ≤ 0
    · rw [if_pos hrem] at h
      exact absurd h (by simp)
    · rw [if_neg hrem] at h
      by_cases hskip : (!staleActivity t e.lastActiveAt && !decide (e.ipLastSeen ≠ ip)) = true
      · rw [if_pos hskip] at h
        have he : e = s := by simpa using h
        rw [← he]
      · rw [if_neg hskip] at h
        have he : e = s := by simpa using h
        rw [← he]

/-- Skip path of the validator: a resolved snapshot with matching last-seen
IP, fresh activity and positive remaining lifetime touches only the cache. -/
theorem verify_skip_spec (geoX : String → GeoPoint) (dbx : Db) (t1 : Int)
    (tok ip : String) (e : Snapshot)
    (hres : resolveSnapshot dbx t1 tok = some e)
    (hip : e.ipLastSeen = ip)
    (hstale : staleActivity t1 e.lastActiveAt = false)
    (hrem : 0 < Int.ediv (e.refreshTokenExpiry - t1) 1000) :
    (verifyAndUpdateUserSessionActivity geoX dbx t1 tok ip).dbWrites = 0 ∧
    (verifyAndUpdateUserSessionActivity geoX dbx t1 tok ip).db.sessions = dbx.sessions := by
  simp only [verifyAndUpdateUserSessionActivity, hres]
  rw [if_neg (by omega : ¬ Int.ediv (e.refreshTokenExpiry - t1) 1000 ≤ 0)]
  rw [if_pos (by
    rw [hstale, hip]
    simp)]
  exact ⟨rfl, rfl⟩

/-- C7, amended: two validation calls on the same token with the same client
IP, the second strictly within one durable-write throttle interval of the
first, where the token both times has a positive remaining lifetime as the
code computes it and carries at least the base cache TTL of remaining life at
the first call, perform at most one durable write in total; the second call
touches only the cache and leaves the durable session records unchanged. -/
theorem c7_throttle_amended (geo geo2 : String → GeoPoint) (db : Db)
    (t0 t1 : Int) (tok ip : String) (s1 s2 : Snapshot)
    (h0 : 0 < t0) (h01 : t0 ≤ t1)
    (hint : t1 - t0 < SESSION.ACTIVITY_DB_UPDATE_INTERVAL_MS)
    (hs1 : (verifyAndUpdateUserSessionActivity geo db t0 tok ip).snapshot = some s1)
    (hlife : 1000 * SESSION.REDIS_TTL_SECONDS ≤ s1.refreshTokenExpiry - t0)
    (hs2 : (verifyAndUpdateUserSessionActivity geo2
      (verifyAndUpdateUserSessionActivity geo db t0 tok ip).db t1 tok ip).snapshot = some s2) :
    (verifyAndUpdateUserSessionActivity geo2
      (verifyAndUpdateUserSessionActivity geo db t0 tok ip).db t1 tok ip).dbWrites = 0 ∧
    (verifyAndUpdateUserSessionActivity geo db t0 tok ip).dbWrites +
      (verifyAndUpdateUserSessionActivity geo2
        (verifyAndUpdateUserSessionActivity geo db t0 tok ip).db t1 tok ip).dbWrites ≤ 1 ∧
    (verifyAndUpdateUserSessionActivity geo2
      (verifyAndUpdateUserSessionActivity geo db t0 tok ip).db t1 tok ip).db.sessions =
      (verifyAndUpdateUserSessionActivity geo db t0 tok ip).db.sessions := by
  obtain ⟨hpos1, hw1, f, hfpres, hdbeq⟩ := verify_success_spec geo db t0 tok ip s1 hs1
  have hTTL : SESSION.REDIS_TTL_SECONDS = 900 := rfl
  have hr1 : (900 : Int) ≤ Int.ediv (s1.refreshTokenExpiry - t0) 1000 := by
    have hmod : 0 ≤ (s1.refreshTokenExpiry - t0) % 1000 :=
      Int.emod_nonneg _ (by norm_num)
    have hmodlt : (s1.refreshTokenExpiry - t0) % 1000 < 1000 :=
      Int.emod_lt_of_pos _ (by norm_num)
    have hdm : 1000 * Int.ediv (s1.refreshTokenExpiry - t0) 1000 +
        (s1.refreshTokenExpiry - t0) % 1000 = s1.refreshTokenExpiry - t0 :=
      Int.ediv_add_emod _ _
    rw [hTTL] at hlife
    omega
  have hmin : min SESSION.REDIS_TTL_SECONDS (Int.ediv (s1.refreshTokenExpiry - t0) 1000) =
      900 := by
    rw [hTTL]
    exact min_eq_left hr1
  have hcv : getA (verifyAndUpdateUserSessionActivity geo db t0 tok ip).db.redis tok =
      some { entry := refreshedCacheEntry s1 ip t0 (decide (s1.ipLastSeen ≠ ip)),
             expiresAt := t0 + 1000 * min SESSION.REDIS_TTL_SECONDS
               (Int.ediv (s1.refreshTokenExpiry - t0) 1000) } := by
    rw [hdbeq]
    exact getA_setA_self _ _ _
  have halive : redisGet (verifyAndUpdateUserSessionActivity geo db t0 tok ip).db t1 tok =
      some (refreshedCacheEntry s1 ip t0 (decide (s1.ipLastSeen ≠ ip))) := by
    unfold redisGet
    rw [hcv]
    have hlt : t1 < t0 + 1000 * min SESSION.REDIS_TTL_SECONDS
        (Int.ediv (s1.refreshTokenExpiry - t0) 1000) := by
      rw [hmin]
      have hI : SESSION.ACTIVITY_DB_UPDATE_INTERVAL_MS = 900000 := rfl
      rw [hI] at hint
      omega
    show (if t1 < t0 + 1000 * min SESSION.REDIS_TTL_SECONDS
        (Int.ediv (s1.refreshTokenExpiry - t0) 1000) then
        some (refreshedCacheEntry s1 ip t0 (decide (s1.ipLastSeen ≠ ip))) else none) =
      some (refreshedCacheEntry s1 ip t0 (decide (s1.ipLastSeen ≠ ip)))
    rw [if_pos hlt]
  have hres2 : resolveSnapshot (verifyAndUpdateUserSessionActivity geo db t0 tok ip).db t1 tok =
      some (refreshedCacheEntry s1 ip t0 (decide (s1.ipLastSeen ≠ ip))) := by
    unfold resolveSnapshot
    rw [halive]
  have hs2' := verify_snapshot_eq_resolve geo2
    (verifyAndUpdateUserSessionActivity geo db t0 tok ip).db t1 tok ip s2 hs2
  rw [hres2] at hs2'
  have hse : s2 = refreshedCacheEntry s1 ip t0 (decide (s1.ipLastSeen ≠ ip)) :=
    (Option.some.injEq _ _ ▸ hs2').symm
  obtain ⟨hpos2, hw2, f2, hfpres2, hdbeq2⟩ := verify_success_spec geo2
    (verifyAndUpdateUserSessionActivity geo db t0 tok ip).db t1 tok ip s2 hs2
  have hstaleE : staleActivity t1
      (refreshedCacheEntry s1 ip t0 (decide (s1.ipLastSeen ≠ ip))).lastActiveAt = false := by
    show (t0 == 0 || decide (t1 - t0 > SESSION.ACTIVITY_DB_UPDATE_INTERVAL_MS)) = false
    have h1 : (t0 == 0) = false := by
      refine beq_eq_false_iff_ne.mpr ?_
      omega
    have h2 : decide (t1 - t0 > SESSION.ACTIVITY_DB_UPDATE_INTERVAL_MS) = false := by
      rw [decide_eq_false_iff_not]
      omega
    rw [h1, h2]
    rfl
  have hremE : 0 < Int.ediv
      ((refreshedCacheEntry s1 ip t0 (decide (s1.ipLastSeen ≠ ip))).refreshTokenExpiry - t1) 1000 := by
    rw [← hse]
    exact hpos2
  have hskip := verify_skip_spec geo2
    (verifyAndUpdateUserSessionActivity geo db t0 tok ip).db t1 tok ip
    (refreshedCacheEntry s1 ip t0 (decide (s1.ipLastSeen ≠ ip)))
    hres2 rfl hstaleE hremE
  exact ⟨hskip.1, by omega, hskip.2⟩

def c7AmendedEntry : Snapshot :=
  { sessionId := some "s1"
    refreshTokenExpiry := 10000000
    fingerprint := some "f1"
    ipLastSeen := "1.1.1.1"
    ipLastChangedAt := none
    lastActiveAt := some 999000
    location := none }

def c7AmendedDb : Db :=
  { sessions := [("s1", c7SessionRec)]
    redis := [("tokenhash:t7", { entry := c7AmendedEntry, expiresAt := 1800000 })]
    otp := []
    users := []
    emails := [] }

def c7AmendedEntry2 : Snapshot :=
  { sessionId := some "s1"
    refreshTokenExpiry := 10000000
    fingerprint := some "f1"
    ipLastSeen := "1.1.1.1"
    ipLastChangedAt := none
    lastActiveAt := some 1000000
    location := none }

/-- Witness for the amended C7 at a concrete pair of calls 4.9 seconds apart
on a token with ample remaining life. -/
theorem c7_throttle_amended_witness :
    (verifyAndUpdateUserSessionActivity geoFallback
      (verifyAndUpdateUserSessionActivity geoFallback c7AmendedDb 1000000 "tokenhash:t7" "1.1.1.1").db
      1004900 "tokenhash:t7" "1.1.1.1").dbWrites = 0 ∧
    (verifyAndUpdateUserSessionActivity geoFallback c7AmendedDb 1000000 "tokenhash:t7" "1.1.1.1").dbWrites +
      (verifyAndUpdateUserSessionActivity geoFallback
        (verifyAndUpdateUserSessionActivity geoFallback c7AmendedDb 1000000 "tokenhash:t7" "1.1.1.1").db
        1004900 "tokenhash:t7" "1.1.1.1").dbWrites ≤ 1 ∧
    (verifyAndUpdateUserSessionActivity geoFallback
      (verifyAndUpdateUserSessionActivity geoFallback c7AmendedDb 1000000 "tokenhash:t7" "1.1.1.1").db
      1004900 "tokenhash:t7" "1.1.1.1").db.sessions =
      (verifyAndUpdateUserSessionActivity geoFallback c7AmendedDb 1000000 "tokenhash:t7" "1.1.1.1").db.sessions :=
  c7_throttle_amended geoFallback geoFallback c7AmendedDb 1000000 1004900
    "tokenhash:t7" "1.1.1.1" c7AmendedEntry c7AmendedEntry2
    (by decide) (by decide) (by decide) (by decide) (by decide) (by decide)

/-! ### C3 -/

theorem atan2_one_zero : Risk.atan2 1 0 = Real.pi / 2 := by
  unfold Risk.atan2
  norm_num

/-- Travel metrics of the concrete counterexample jump: antipodal longitudes
(0 to 180 degrees) on the equator one second apart.  The haversine component
collapses to 1, the central angle to pi, and the implied speed far exceeds
the impossible-travel threshold. -/
theorem c3_speed_exceeds :
    (Risk.calculateTravelMetrics 0 0 0 180 999000 1000000).travelSpeedKilometersPerHour ≥
      RISK.MAX_TRAVEL_SPEED_KMPH := by
  have hz1 : ((0:ℝ) - 0) * Real.pi / 180 = 0 := by norm_num
  have hz2 : (0:ℝ) * Real.pi / 180 = 0 := by norm_num
  have hpi : ((180:ℝ) - 0) * Real.pi / 180 = Real.pi := by
    rw [sub_zero]
    rw [mul_comm]
    rw [mul_div_assoc]
    norm_num
  have hms : (((1000000 : Int) - 999000 : Int) : ℝ) = 1000 := by norm_num
  unfold Risk.calculateTravelMetrics
  simp only [hz1, hz2, hpi, hms]
  have hhav : Real.sin ((0:ℝ) / 2) ^ 2 +
      Real.cos 0 * Real.cos 0 * Real.sin (Real.pi / 2) ^ 2 = 1 := by
    norm_num [Real.sin_zero, Real.cos_zero, Real.sin_pi_div_two]
  rw [hhav]
  have hsq1 : Real.sqrt 1 = 1 := Real.sqrt_one
  have hsq0 : Real.sqrt (1 - 1) = 0 := by
    norm_num [Real.sqrt_zero]
  rw [hsq1, hsq0, atan2_one_zero]
  have hhours : ¬ ((1000 : ℝ) / (1000 * 60 * 60) ≤ 0) := by norm_num
  rw [if_neg hhours]
  show (800 : ℝ) ≤ Risk.EARTH_RADIUS_IN_KILOMETERS * (2 * (Real.pi / 2)) /
    ((1000 : ℝ) / (1000 * 60 * 60))
  have hpi3 := Real.pi_gt_three
  have hE : Risk.EARTH_RADIUS_IN_KILOMETERS = 6371 := rfl
  rw [hE]
  rw [show (2 : ℝ) * (Real.pi / 2) = Real.pi by ring]
  rw [show ((1000 : ℝ) / (1000 * 60 * 60)) = 1 / 3600 by norm_num]
  rw [div_div_eq_mul_div, div_one]
  nlinarith [hpi3]


/-- Score of a risk evaluation whose two velocity counters are on their
first increment, whose device fingerprint has no prior session, and whose
user has a most recent session: the new-device weight plus the geo-jump and
travel contributions plus the standing-risk contribution. -/
theorem evaluateLoginRisk_first_increment_score (geo : String → Risk.GeoLocation)
    (st : Risk.RState) (now : Int)
    (userId userEmail ip fingerprint userAgent : String) (ls : Risk.RSession)
    (hip : getA st.ipCounters (String.append "risk:ip:" ip) = none)
    (hfp : getA st.fingerprintCounters (String.append "risk:fingerprint:" fingerprint) = none)
    (hdev : st.sessions.find? (fun s =>
      decide (s.userId = userId ∧ s.fingerprint = fingerprint)) = none)
    (hlast : Risk.lastSessionOf st.sessions userId = some ls) :
    (Risk.evaluateLoginRisk geo st now userId userEmail ip fingerprint userAgent).1.score =
      RISK.SCORE_NEW_DEVICE +
      (if ls.ipLastSeen ≠ ip then
        (if (Risk.calculateTravelMetrics ls.location.latitude ls.location.longitude
            (geo ip).latitude (geo ip).longitude ls.lastActiveAt now).travelSpeedKilometersPerHour ≥
            RISK.MAX_TRAVEL_SPEED_KMPH then
          (if ls.location.country ≠ (geo ip).country then RISK.SCORE_GEO_JUMP else 0) +
            RISK.SCORE_IMPOSSIBLE_TRAVEL
        else
          (if ls.location.country ≠ (geo ip).country then RISK.SCORE_GEO_JUMP else 0))
       else 0) +
      (match getA st.users userId with
       | none => 0
       | some r => if r > RISK.USER_RISK_SCORE_MAX then RISK.SCORE_USER_RISK else 0) := by
  unfold Risk.evaluateLoginRisk
  have hip' : Risk.incrCounter st.ipCounters (String.append "risk:ip:" ip) =
      (1, setA st.ipCounters (String.append "risk:ip:" ip) 1) := by
    unfold Risk.incrCounter
    rw [hip]
  have hfp' : Risk.incrCounter st.fingerprintCounters
      (String.append "risk:fingerprint:" fingerprint) =
      (1, setA st.fingerprintCounters (String.append "risk:fingerprint:" fingerprint) 1) := by
    unfold Risk.incrCounter
    rw [hfp]
  rw [hip', hfp', hdev, hlast]
  simp only
  rw [if_neg (by decide : ¬ ((1:Nat) > RISK.IP_VELOCITY_THRESHOLD))]
  rw [if_neg (by decide : ¬ ((1:Nat) > RISK.NEW_DEVICE_THRESHOLD))]
  rw [if_pos trivial]
  simp only [apply_ite (fun p : Int × List EmailKind => p.1)]
  rw [zero_add, zero_add]

def c3LastSession : Risk.RSession :=
  { userId := "u1"
    fingerprint := "fOld"
    ipLastSeen := "9.9.9.9"
    location := { city := "A", country := "Unknown", latitude := 0, longitude := 0 }
    lastActiveAt := 999000 }

def c3State : Risk.RState :=
  { ipCounters := []
    fingerprintCounters := []
    sessions := [c3LastSession]
    users := [("u1", 0)]
    emails := [] }

def c3Geo : String → Risk.GeoLocation :=
  fun _ => { city := "B", country := "Unknown", latitude := 0, longitude := 180 }

/-- C3, counterexample: the claim states that under a brand-new device,
first increments of both velocity counters, and an unchanged country, the
returned score equals exactly the new-device weight with no travel weight
added.  At this input every stated condition holds — no session with the
presented fingerprint, both counters at their first increment, the most
recent session's country equal to the resolved country — yet the code also
adds the impossible-travel weight, because the same-country jump spans
antipodal coordinates one second apart; the score is 130, not 30. -/
theorem c3_new_device_score_counterexample :
    (Risk.evaluateLoginRisk c3Geo c3State 1000000 "u1" "e@x" "8.8.8.8" "fNew" "ua").1.score =
      RISK.SCORE_NEW_DEVICE + RISK.SCORE_IMPOSSIBLE_TRAVEL ∧
    RISK.SCORE_NEW_DEVICE + RISK.SCORE_IMPOSSIBLE_TRAVEL ≠ RISK.SCORE_NEW_DEVICE := by
  constructor
  · rw [evaluateLoginRisk_first_increment_score c3Geo c3State 1000000 "u1" "e@x"
      "8.8.8.8" "fNew" "ua" c3LastSession rfl rfl rfl rfl]
    rw [if_pos (by decide : c3LastSession.ipLastSeen ≠ "8.8.8.8")]
    rw [if_pos (show (Risk.calculateTravelMetrics c3LastSession.location.latitude
      c3LastSession.location.longitude (c3Geo "8.8.8.8").latitude
      (c3Geo "8.8.8.8").longitude c3LastSession.lastActiveAt
      1000000).travelSpeedKilometersPerHour ≥ RISK.MAX_TRAVEL_SPEED_KMPH
      from c3_speed_exceeds)]
    rw [if_neg (by decide :
      ¬ (c3LastSession.location.country ≠ (c3Geo "8.8.8.8").country))]
    rw [show getA c3State.users "u1" = some 0 from by decide]
    simp only
    rw [if_neg (by decide : ¬ ((0:Int) > RISK.USER_RISK_SCORE_MAX))]
    decide
  · decide

/-- C3, amended: a login-risk evaluation where the device fingerprint has no
prior session for the user, both velocity counters are on their first
increment in the window, the most recent session's country equals the
country resolved for the current IP, the implied travel speed stays below
the impossible-travel threshold (or the last-seen IP is unchanged), and the
user's standing risk score does not exceed the elevated-risk ceiling,
returns a score of exactly the new-device weight. -/
theorem c3_new_device_score_amended (geo : String → Risk.GeoLocation)
    (st : Risk.RState) (now : Int)
    (userId userEmail ip fingerprint userAgent : String) (ls : Risk.RSession)
    (hip : getA st.ipCounters (String.append "risk:ip:" ip) = none)
    (hfp : getA st.fingerprintCounters (String.append "risk:fingerprint:" fingerprint) = none)
    (hdev : st.sessions.find? (fun s =>
      decide (s.userId = userId ∧ s.fingerprint = fingerprint)) = none)
    (hlast : Risk.lastSessionOf st.sessions userId = some ls)
    (hcountry : ls.location.country = (geo ip).country)
    (htravel : ls.ipLastSeen = ip ∨
      ¬ ((Risk.calculateTravelMetrics ls.location.latitude ls.location.longitude
        (geo ip).latitude (geo ip).longitude ls.lastActiveAt now).travelSpeedKilometersPerHour ≥
        RISK.MAX_TRAVEL_SPEED_KMPH))
    (hrisk : ∀ r, getA st.users userId = some r → ¬ r > RISK.USER_RISK_SCORE_MAX) :
    (Risk.evaluateLoginRisk geo st now userId userEmail ip fingerprint userAgent).1.score =
      RISK.SCORE_NEW_DEVICE := by
  rw [evaluateLoginRisk_first_increment_score geo st now userId userEmail ip
    fingerprint userAgent ls hip hfp hdev hlast]
  have hgeo : (if ls.ipLastSeen ≠ ip then
      (if (Risk.calculateTravelMetrics ls.location.latitude ls.location.longitude
          (geo ip).latitude (geo ip).longitude ls.lastActiveAt now).travelSpeedKilometersPerHour ≥
          RISK.MAX_TRAVEL_SPEED_KMPH then
        (if ls.location.country ≠ (geo ip).country then RISK.SCORE_GEO_JUMP else 0) +
          RISK.SCORE_IMPOSSIBLE_TRAVEL
      else
        (if ls.location.country ≠ (geo ip).country then RISK.SCORE_GEO_JUMP else 0))
     else (0:Int)) = 0 := by
    by_cases hsame : ls.ipLastSeen = ip
    · rw [if_neg (fun hc => hc hsame)]
    · rw [if_pos hsame]
      cases htravel with
      | inl hc => exact absurd hc hsame
      | inr hc =>
        rw [if_neg hc]
        rw [if_neg (fun hcc => hcc hcountry)]
  rw [hgeo]
  cases hu : getA st.users userId with
  | none =>
    simp only
    omega
  | some r =>
    simp only
    rw [if_neg (hrisk r hu)]
    omega

def c3WitnessLs : Risk.RSession :=
  { userId := "u1"
    fingerprint := "fOld"
    ipLastSeen := "1.2.3.4"
    location := { city := "C", country := "Unknown", latitude := 0, longitude := 0 }
    lastActiveAt := 0 }

def c3WitnessState : Risk.RState :=
  { ipCounters := []
    fingerprintCounters := []
    sessions := [c3WitnessLs]
    users := [("u1", 0)]
    emails := [] }

def c3WitnessGeo : String → Risk.GeoLocation :=
  fun _ => { city := "D", country := "Unknown", latitude := 0, longitude := 0 }

/-- Witness for the amended C3 at a concrete first-time login from a new
device with an unchanged IP and country. -/
theorem c3_new_device_score_amended_witness :
    (Risk.evaluateLoginRisk c3WitnessGeo c3WitnessState 5 "u1" "e@x" "1.2.3.4" "fNew" "ua").1.score =
      RISK.SCORE_NEW_DEVICE :=
  c3_new_device_score_amended c3WitnessGeo c3WitnessState 5 "u1" "e@x" "1.2.3.4"
    "fNew" "ua" c3WitnessLs rfl rfl rfl rfl rfl
    (Or.inl rfl)
    (by
      intro r hr
      have hr0 : r = 0 := by
        have : (some (0:Int) : Option Int) = some r := by
          rw [← hr]
          decide
        exact (Option.some.injEq _ _ ▸ this).symm
      rw [hr0]
      decide)

end Sentinel
